import Mathlib

/-!
Verification of the Rat24S compiler (NLTN/Rat24S-compiler) against its
natural-language specification.

The development shallowly embeds the compiler:

* the lexer driver loop of src/components/lexcical_analyzer.py (class Lexer),
  including its two tabular DFAs, over a character-list model of the input
  stream with one-character pushback;
* the recursive-descent parser with embedded code generation of
  src/components/syntax_analyzer.py (class Parser), as a family of
  fuel-indexed state transformers over an explicit parser state;
* the wrapper of src/components/code_generator.py (class CodeGenerator).

The repository modules components/FSM.py, components/symbol_table.py,
components/instruction_table.py, components/semantic_checker.py and the
common/ configuration package are imported by the sources above but are not
present under src/.  Definitions for those parts are modelled from the
specification (sections 2, 3, 4.1, 4.2, 4.4, 4.5, 4.6) and carry a doc
comment starting with "Modelled from the spec:".

Python exceptions are modelled as error results that carry the state at the
moment of the raise (a raised exception aborts parsing, but mutations done
to the tables up to that point persist on the Python objects).
-/

/-- Token kinds, from common/enums.py (module absent from src/).
Modelled from the spec: section 3 lists the kinds KEYWORD, IDENTIFIER,
INTEGER, REAL, OPERATOR, SEPARATOR, BOOLEAN, UNKNOWN. -/
inductive TokenType where
  | KEYWORD
  | IDENTIFIER
  | INTEGER
  | REAL
  | OPERATOR
  | SEPARATOR
  | BOOLEAN
  | UNKNOWN
deriving DecidableEq

/-- Opcodes, from common/enums.py (module absent from src/).
Modelled from the spec: section 3 lists the opcodes of the stack machine. -/
inductive Operator where
  | PUSHI
  | PUSHM
  | POPM
  | SIN
  | SOUT
  | A
  | S
  | M
  | D
  | GRT
  | LES
  | EQU
  | NEQ
  | LEQ
  | GEQ
  | JUMP
  | JUMP0
  | LABEL
deriving DecidableEq

/-- A token, from src/components/lexcical_analyzer.py (dataclass Token). -/
structure Token where
  lexeme : String
  token_type : TokenType
deriving DecidableEq

/-- Modelled from the spec: section 4.2 gives the exact reserved-word table
of common/reserved_words_symbols.py (module absent from src/). -/
def KEYWORDS : List String :=
  ["function", "integer", "real", "boolean", "if", "endif", "else",
   "return", "print", "scan", "while", "true", "false"]

/-- Modelled from the spec: section 4.2 gives the separator character set
of common/reserved_words_symbols.py (module absent from src/). -/
def SEPARATORS : List Char :=
  ['(', ')', '[', ']', '\x7b', '\x7d', ',', ';', '$']

/-- Modelled from the spec: section 6 lists the operators; the one-character
ones form SIMPLE_OPERATORS of common/reserved_words_symbols.py. -/
def SIMPLE_OPERATORS : List Char := ['+', '-', '*', '/', '=', '<', '>']

/-- Modelled from the spec: section 6 lists the operators; the two-character
ones form COMPOUND_OPERATORS of common/reserved_words_symbols.py. -/
def COMPOUND_OPERATORS : List String := ["==", "!=", "<=", "=>"]

/-- Modelled from the spec: comments are bracketed by the two-character
delimiters of section 4.2; this is COMMENT_DELIMITER_BEGIN = "[*" (its
first character) and the decimal separator is '.'. -/
def COMMENT_BEGIN_0 : Char := '['

def COMMENT_BEGIN_1 : Char := '*'

def COMMENT_END_0 : Char := '*'

def COMMENT_END_1 : Char := ']'

def DECIMAL_SEPARATOR : Char := '.'

/-- Stop characters, from Lexer.__get_stop_signs: the first character of
every separator, simple operator and compound operator, plus space, newline
and the first comment-delimiter character. -/
def STOP_SIGNS : List Char :=
  ['(', ')', '[', ']', '\x7b', '\x7d', ',', ';', '$',
   '+', '-', '*', '/', '=', '<', '>', '!', ' ', '\n']

/-- Character-to-symbol mapper shared by both DFAs, from
Lexer.__build_int_real_FSM / __build_identifier_FSM: digits map to 'd',
letters to 'l', anything else to itself. -/
def char_to_symbol (c : Char) : Char :=
  if c.isDigit then 'd' else if c.isAlpha then 'l' else c

/-- Transition function of the integer/real DFA, from the transition table
in Lexer.__build_int_real_FSM (states A B C D E, alphabet d and '.';
unmapped symbols go to the trap state E). -/
def int_real_step (s : Char) (c : Char) : Char :=
  let sym := char_to_symbol c
  if sym = 'd' then
    match s with
    | 'A' => 'B'
    | 'B' => 'B'
    | 'C' => 'D'
    | 'D' => 'D'
    | _ => 'E'
  else if sym = '.' then
    match s with
    | 'B' => 'C'
    | _ => 'E'
  else 'E'

/-- Transition function of the identifier DFA, from the transition table in
Lexer.__build_identifier_FSM (states A B C D E F, alphabet l, d, '_';
unmapped symbols go to the trap state F). -/
def identifier_step (s : Char) (c : Char) : Char :=
  let sym := char_to_symbol c
  if sym = 'l' then
    match s with
    | 'A' => 'B'
    | 'B' => 'C'
    | 'C' => 'C'
    | 'D' => 'C'
    | 'E' => 'C'
    | _ => 'F'
  else if sym = 'd' then
    match s with
    | 'A' => 'F'
    | 'B' => 'D'
    | 'C' => 'D'
    | 'D' => 'D'
    | 'E' => 'D'
    | _ => 'F'
  else if sym = '_' then
    match s with
    | 'A' => 'F'
    | 'B' => 'E'
    | 'C' => 'E'
    | 'D' => 'E'
    | 'E' => 'E'
    | _ => 'F'
  else 'F'

/-- Result of a DFA trace, from FSM.traceDFSM: whether the final state is
accepting, the final state (accepted_states[0] in the Python callers), and
the consumed lexeme. -/
structure FSMRes where
  accepted : Bool
  accepted_state : Char
  lexeme : String
deriving DecidableEq

/-- Modelled from the spec: section 4.1 describes FSM.traceDFSM
(components/FSM.py is absent from src/).  The loop accumulates characters
into the lexeme, stepping the DFA on each; it stops when the next character
is a stop character (which is pushed back, i.e. left on the stream) or at
end of input; the result is accepting iff the final state is accepting. -/
def traceGo (step : Char → Char → Char) (accepting : List Char) :
    Char → String → List Char → List Char → FSMRes × List Char
  | s, lex, _, [] => (⟨accepting.contains s, s, lex⟩, [])
  | s, lex, stops, c :: rest =>
    if stops.contains c then (⟨accepting.contains s, s, lex⟩, c :: rest)
    else traceGo step accepting (step s c) (lex.push c) stops rest

/-- Modelled from the spec: section 4.1.  Entry point of a DFA trace: both
DFAs start in state A; the first character is consumed unconditionally. -/
def traceDFSM (step : Char → Char → Char) (accepting : List Char)
    (first : Char) (stream : List Char) (stops : List Char) :
    FSMRes × List Char :=
  traceGo step accepting (step 'A' first) (String.singleton first) stops stream

/-- One iteration of the Lexer.__init__ driver loop (src/components/
lexcical_analyzer.py lines 52-155), given the comment flag, the current
character and the rest of the stream.  Returns the tokens appended by the
iteration, the new comment flag, and the stream as left for the next
iteration (a pushed-back character is at its head). -/
def lexOne (inside_comment : Bool) (current : Char) (stream : List Char) :
    List Token × Bool × List Char :=
  if ¬inside_comment ∧ current = COMMENT_BEGIN_0 then
    -- COMMENT BLOCK BEGIN checking
    match stream with
    | next :: rest =>
      if next = COMMENT_BEGIN_1 then ([], true, rest)
      else ([⟨String.singleton current, TokenType.UNKNOWN⟩], false, next :: rest)
    | [] => ([⟨String.singleton current, TokenType.UNKNOWN⟩], false, [])
  else if inside_comment ∧ current = COMMENT_END_0 then
    -- COMMENT BLOCK END checking
    match stream with
    | next :: rest =>
      if next = COMMENT_END_1 then ([], false, rest)
      else ([], true, next :: rest)
    | [] => ([], true, [])
  else if current = ' ' ∨ current = '\n' ∨ current = '\t' ∨ inside_comment then
    -- ignore whitespace and comment interiors
    ([], inside_comment, stream)
  else if current.isDigit ∨ current = DECIMAL_SEPARATOR then
    -- INT or REAL checking
    let r := traceDFSM int_real_step ['B', 'D'] current stream STOP_SIGNS
    if ¬r.1.accepted then ([⟨r.1.lexeme, TokenType.UNKNOWN⟩], inside_comment, r.2)
    else if r.1.accepted_state = 'B' then ([⟨r.1.lexeme, TokenType.INTEGER⟩], inside_comment, r.2)
    else if r.1.accepted_state = 'D' then ([⟨r.1.lexeme, TokenType.REAL⟩], inside_comment, r.2)
    else ([], inside_comment, r.2)
  else if current.isAlpha then
    -- IDENTIFIER checking
    let r := traceDFSM identifier_step ['B', 'C', 'D', 'E'] current stream STOP_SIGNS
    if ¬r.1.accepted then ([⟨r.1.lexeme, TokenType.UNKNOWN⟩], inside_comment, r.2)
    else if KEYWORDS.contains r.1.lexeme then ([⟨r.1.lexeme, TokenType.KEYWORD⟩], inside_comment, r.2)
    else ([⟨r.1.lexeme, TokenType.IDENTIFIER⟩], inside_comment, r.2)
  else if SEPARATORS.contains current then
    -- SEPARATOR checking
    ([⟨String.singleton current, TokenType.SEPARATOR⟩], inside_comment, stream)
  else if STOP_SIGNS.contains current then
    -- OPERATOR checking
    match stream with
    | next :: rest =>
      let buffer := (String.singleton current).push next
      if COMPOUND_OPERATORS.contains buffer then
        ([⟨buffer, TokenType.OPERATOR⟩], inside_comment, rest)
      else if SIMPLE_OPERATORS.contains current then
        ([⟨String.singleton current, TokenType.OPERATOR⟩], inside_comment, next :: rest)
      else
        let r := traceDFSM identifier_step ['B', 'C', 'D', 'E'] current (next :: rest)
          (STOP_SIGNS.erase current)
        ([⟨r.1.lexeme, TokenType.UNKNOWN⟩], inside_comment, r.2)
    | [] =>
      -- at end of file read(1) returns the empty string: the two-character
      -- buffer degenerates to the current character, never a compound
      if SIMPLE_OPERATORS.contains current then
        ([⟨String.singleton current, TokenType.OPERATOR⟩], inside_comment, [])
      else
        let r := traceDFSM identifier_step ['B', 'C', 'D', 'E'] current []
          (STOP_SIGNS.erase current)
        ([⟨r.1.lexeme, TokenType.UNKNOWN⟩], inside_comment, r.2)
  else
    -- ILLEGAL character
    let r := traceDFSM identifier_step ['B', 'C', 'D', 'E'] current stream STOP_SIGNS
    ([⟨r.1.lexeme, TokenType.UNKNOWN⟩], inside_comment, r.2)

/-- The full Lexer.__init__ driver loop: read one character, process it with
lexOne, repeat until end of input.  The fuel argument is an embedding
artifact; every iteration consumes at least one character, so fuel equal to
the length of the input suffices. -/
def lexAll : Nat → Bool → List Char → List Token
  | 0, _, _ => []
  | _ + 1, _, [] => []
  | n + 1, inside_comment, c :: rest =>
    let r := lexOne inside_comment c rest
    r.1 ++ lexAll n r.2.1 r.2.2

/-- Tokens extracted by constructing a Lexer on the given source text. -/
def lexFile (input : String) : List Token :=
  lexAll (input.length + 1) false input.data

/-- State of a Lexer after construction, for Lexer.get_next_token
(src/components/lexcical_analyzer.py lines 160-171): the extracted token
list and the current retrieval index, initialised to -1. -/
structure LexState where
  tokens : List Token
  current_index : Int
deriving DecidableEq

/-- Lexer.get_next_token: if the index is before the last token, advance it
and return the token there; otherwise return none and leave the state
unchanged. -/
def get_next_token (s : LexState) : Option Token × LexState :=
  if s.current_index < (s.tokens.length : Int) - 1 then
    (s.tokens.get? (s.current_index + 1).toNat, ⟨s.tokens, s.current_index + 1⟩)
  else (none, s)

/-- The result of the n-th successive call (0-based) of get_next_token
starting from the given lexer state, together with the state after it. -/
def nthCall (s : LexState) : Nat → Option Token × LexState
  | 0 => get_next_token s
  | n + 1 => nthCall (get_next_token s).2 n

/-- A symbol-table entry.  Modelled from the spec: section 3 gives the
fields identifier, memory_address, declared_type
(components/symbol_table.py is absent from src/). -/
structure STEntry where
  identifier : String
  address : Nat
  data_type : TokenType
deriving DecidableEq

/-- Modelled from the spec: section 4.4 (components/symbol_table.py is
absent from src/).  An append-only mapping with a base address; addresses
are assigned monotonically from the base in declaration order. -/
structure SymbolTable where
  base : Nat
  entries : List STEntry
deriving DecidableEq

/-- Lookup of a declared identifier, insertion order. -/
def SymbolTable.lookup (tbl : SymbolTable) (name : String) : Option STEntry :=
  tbl.entries.find? (fun e => e.identifier = name)

/-- An instruction: an opcode with an optional operand.  Operands are
integers (addresses, patched jump targets, boolean constants) or strings
(integer literals with an optional leading minus), per section 3 and the
calls to generate_instruction in src/components/syntax_analyzer.py. -/
inductive Opnd where
  | num (v : Nat)
  | str (v : String)
deriving DecidableEq

structure Instr where
  op : Operator
  operand : Option Opnd
deriving DecidableEq

/-- Modelled from the spec: sections 3 and 4.6 (components/
instruction_table.py is absent from src/).  An append-only instruction list
addressed contiguously from 1, plus the LIFO jump stack.  The patch_log
field is instrumentation added by this development: it records every
back-patch performed as a pair (patched instruction address, target
written); it influences nothing else. -/
structure InstructionTable where
  instrs : List Instr
  jump_stack : List Nat
  patch_log : List (Nat × Nat)
deriving DecidableEq

/-- Replace the operand of the instruction at the given 0-based index with
the integer target (back-patching mutates only the operand). -/
def setOperand (l : List Instr) (idx : Nat) (target : Nat) : List Instr :=
  match l.get? idx with
  | some ins => l.set idx ⟨ins.op, some (Opnd.num target)⟩
  | none => l

/-- Errors raised while parsing.  Each constructor corresponds to one raise
site in src/components/syntax_analyzer.py, to an error of a module modelled
from the spec, or to a Python runtime error (AttributeError from accessing
a field of None, UnboundLocalError, IndexError from popping an empty jump
stack).  fuelOut is an embedding artifact marking recursion-fuel
exhaustion; it never occurs on a terminating parse given enough fuel. -/
inductive PErr where
  | fuelOut
  | inputEmpty
  | expectedEOF (found : String)
  | eofUnexpected
  | attributeErrorNone
  | unboundLocal
  | expectedFound (expected found : String)
  | expectedIdentifier (found : TokenType)
  | qualifierMissing (found : String)
  | statementMissing (found : String)
  | keywordMissing (found : String)
  | assignOpMissing (found : String)
  | relopMissing (found : String)
  | primaryExpected (found : TokenType)
  | duplicateIdentifier (name : String)
  | identifierNotFound (name : String)
  | typeMismatch (types : List TokenType) (lhs : TokenType)
  | nonIntegerArithmetic
  | realNotAllowed
  | realNumberNotAllowed
  | cannotDetermineType (lexeme : String)
  | emptyJumpStack
deriving DecidableEq

/-- First line of the message carried by each error, as raised by
src/components/syntax_analyzer.py (for errors of the modules absent from
src/, modelled from the spec, sections 4.4, 4.5 and 7). -/
def PErr.message : PErr → String
  | .fuelOut => "recursion fuel exhausted"
  | .inputEmpty => "The input is empty"
  | .expectedEOF found => "Expected End Of File, but found " ++ found
  | .eofUnexpected => "Encountered End of File unexpectedly"
  | .attributeErrorNone => "AttributeError: NoneType has no attribute"
  | .unboundLocal => "UnboundLocalError: lhs_token"
  | .expectedFound e f => "Expected " ++ e ++ ", found " ++ f
  | .expectedIdentifier _ => "Expected an Identifier"
  | .qualifierMissing _ => "Qualifier is missing."
  | .statementMissing _ => "Statement is missing."
  | .keywordMissing _ => "A keyword is missing."
  | .assignOpMissing _ => "Assignment operator is missing."
  | .relopMissing _ => "Relational operator is missing."
  | .primaryExpected _ => "Expected a primary"
  | .duplicateIdentifier _ => "Duplicate identifier"
  | .identifierNotFound _ => "Identifier not found"
  | .typeMismatch _ _ => "Data types do not match"
  | .nonIntegerArithmetic => "cannot perform arithmetic on non-integer"
  | .realNotAllowed => "Real data type is not allowed"
  | .realNumberNotAllowed => "Real number is not allowed"
  | .cannotDetermineType _ => "cannot determine data type"
  | .emptyJumpStack => "IndexError: pop from empty jump stack"

/-- Parser state: the remaining token stream (the current token is its
head, matching the Lexer.get_next_token consumption), the symbol table,
the instruction table, and the code-generation flag set by
Parser.enable_code_generation. -/
structure PState where
  toks : List Token
  sym : SymbolTable
  itab : InstructionTable
  cg : Bool
deriving DecidableEq

/-- The parser computation type: a state transformer returning a value or
an error.  An error keeps the state at the moment of the raise. -/
def PR (α : Type) : Type := PState → Except PErr α × PState

def PR.pure {α : Type} (a : α) : PR α := fun st => (Except.ok a, st)

def PR.bind {α β : Type} (m : PR α) (f : α → PR β) : PR β := fun st =>
  match m st with
  | (Except.ok a, st2) => f a st2
  | (Except.error e, st2) => (Except.error e, st2)

instance : Monad PR where
  pure := PR.pure
  bind := PR.bind

theorem PR.bind_eq {α β : Type} (m : PR α) (f : α → PR β) :
    (m >>= f) = PR.bind m f := rfl

theorem PR.pure_eq {α : Type} (a : α) : (Pure.pure a : PR α) = PR.pure a := rfl

def fuelErr {α : Type} : PR α := fun st => (Except.error PErr.fuelOut, st)

def perr {α : Type} (e : PErr) : PR α := fun st => (Except.error e, st)

/-- Read the current token, or raise the AttributeError a Python access of
self.__current_token.lexeme / .token_type raises when the token is None.
All state primitives destructure and rebuild the state explicitly, which
keeps evaluation of the embedding linear. -/
def curToken : PR Token := fun st =>
  match st with
  | ⟨toks, sym, itab, cg⟩ =>
    match toks with
    | t :: rest => (Except.ok t, ⟨t :: rest, sym, itab, cg⟩)
    | [] => (Except.error PErr.attributeErrorNone, ⟨[], sym, itab, cg⟩)

/-- Parser.__match: compare the current token lexeme with the expected one;
on a match advance to the next token, otherwise raise a syntax error. -/
def matchTok (expected : String) : PR Unit := fun st =>
  match st with
  | ⟨toks, sym, itab, cg⟩ =>
    match toks with
    | [] => (Except.error PErr.attributeErrorNone, ⟨[], sym, itab, cg⟩)
    | t :: rest =>
      if t.lexeme = expected then (Except.ok (), ⟨rest, sym, itab, cg⟩)
      else (Except.error (PErr.expectedFound expected t.lexeme), ⟨t :: rest, sym, itab, cg⟩)

/-- Parser.__log_current_token: raises when the current token is None
(message text itself not modelled; the message log list has no effect on
parsing and is omitted from the state). -/
def logCur : PR Unit := fun st =>
  match st with
  | ⟨toks, sym, itab, cg⟩ =>
    match toks with
    | t :: rest => (Except.ok (), ⟨t :: rest, sym, itab, cg⟩)
    | [] => (Except.error PErr.eofUnexpected, ⟨[], sym, itab, cg⟩)

/-- Read the code-generation flag. -/
def getCG : PR Bool := fun st =>
  match st with
  | ⟨toks, sym, itab, cg⟩ => (Except.ok cg, ⟨toks, sym, itab, cg⟩)

/-- Run the body only when code generation is enabled (the Python pattern
"if self.__code_generation_enabled:"), else return the default. -/
def cgOnly {α : Type} (d : α) (m : PR α) : PR α := fun st =>
  match st with
  | ⟨toks, sym, itab, cg⟩ =>
    if cg then m ⟨toks, sym, itab, cg⟩ else (Except.ok d, ⟨toks, sym, itab, cg⟩)

/-- InstructionTable.generate_instruction.  Modelled from the spec: section
4.6, emit(opcode, operand?) appends the instruction and returns the
just-assigned address; addresses are contiguous from 1 (section 3). -/
def emit (op : Operator) (operand : Option Opnd) : PR Nat := fun st =>
  match st with
  | ⟨toks, sym, ⟨instrs, js, log⟩, cg⟩ =>
    (Except.ok (instrs.length + 1),
     ⟨toks, sym, ⟨instrs ++ [⟨op, operand⟩], js, log⟩, cg⟩)

/-- InstructionTable.push_jump_stack.  Modelled from the spec: section 4.6. -/
def push_jump_stack (a : Nat) : PR Unit := fun st =>
  match st with
  | ⟨toks, sym, ⟨instrs, js, log⟩, cg⟩ =>
    (Except.ok (), ⟨toks, sym, ⟨instrs, a :: js, log⟩, cg⟩)

/-- InstructionTable.back_patch.  Modelled from the spec: section 4.6, pops
the jump stack and sets the operand of the instruction at the popped
address to the target (popping an empty stack is a runtime error).  The
performed patch is also recorded in the instrumentation log. -/
def back_patch (target : Nat) : PR Unit := fun st =>
  match st with
  | ⟨toks, sym, ⟨instrs, js, log⟩, cg⟩ =>
    match js with
    | [] => (Except.error PErr.emptyJumpStack, ⟨toks, sym, ⟨instrs, [], log⟩, cg⟩)
    | a :: rest =>
      (Except.ok (),
       ⟨toks, sym, ⟨setOperand instrs (a - 1) target, rest, log ++ [(a, target)]⟩, cg⟩)

/-- SymbolTable.add.  Modelled from the spec: section 4.4, error on a
duplicate identifier; the new entry gets address base + size. -/
def sym_add (name : String) (ty : TokenType) : PR Unit := fun st =>
  match st with
  | ⟨toks, ⟨base, entries⟩, itab, cg⟩ =>
    if entries.any (fun e => e.identifier = name) then
      (Except.error (PErr.duplicateIdentifier name), ⟨toks, ⟨base, entries⟩, itab, cg⟩)
    else
      (Except.ok (),
       ⟨toks, ⟨base, entries ++ [⟨name, base + entries.length, ty⟩]⟩, itab, cg⟩)

/-- SymbolTable.get_address.  Modelled from the spec: section 4.4, error on
an undeclared identifier. -/
def sym_get_address (name : String) : PR Nat := fun st =>
  match st with
  | ⟨toks, sym, itab, cg⟩ =>
    match sym.lookup name with
    | some e => (Except.ok e.address, ⟨toks, sym, itab, cg⟩)
    | none => (Except.error (PErr.identifierNotFound name), ⟨toks, sym, itab, cg⟩)

/-- SemanticChecker.determine_data_type.  Modelled from the spec: section
4.5, an identifier resolves to its declared type (error if undeclared), an
INTEGER literal to INTEGER, true/false to BOOLEAN. -/
def determine_data_type (t : Token) : PR TokenType := fun st =>
  match st with
  | ⟨toks, sym, itab, cg⟩ =>
    if t.token_type = TokenType.IDENTIFIER then
      match sym.lookup t.lexeme with
      | some e => (Except.ok e.data_type, ⟨toks, sym, itab, cg⟩)
      | none => (Except.error (PErr.identifierNotFound t.lexeme), ⟨toks, sym, itab, cg⟩)
    else if t.token_type = TokenType.INTEGER then
      (Except.ok TokenType.INTEGER, ⟨toks, sym, itab, cg⟩)
    else if t.lexeme = "true" ∨ t.lexeme = "false" then
      (Except.ok TokenType.BOOLEAN, ⟨toks, sym, itab, cg⟩)
    else (Except.error (PErr.cannotDetermineType t.lexeme), ⟨toks, sym, itab, cg⟩)

/-- SemanticChecker.validate_arithmetic_operation.  Modelled from the spec:
section 4.5, both operands must resolve to INTEGER. -/
def validate_arithmetic_operation (a b : Token) : PR Unit := do
  let ta ← determine_data_type a
  let tb ← determine_data_type b
  if ta = TokenType.INTEGER ∧ tb = TokenType.INTEGER then PR.pure ()
  else perr PErr.nonIntegerArithmetic

/-- Insertion into the set of data types collected from expression leaves
(Python uses a set of TokenType members; only membership is relevant, so it
is modelled as a duplicate-free list with insertion order). -/
def addType (s : List TokenType) (t : TokenType) : List TokenType :=
  if t ∈ s then s else s ++ [t]

/-- Union of two collected data-type sets (Python set.update). -/
def unionTypes (s1 s2 : List TokenType) : List TokenType :=
  s2.foldl addType s1

/-- The lowercase conversion applied by the parser before comparing lexemes
(Python str.lower, over the ASCII source alphabet). -/
def strLower (s : String) : String := String.mk (s.data.map Char.toLower)

/-- The FIRST set of a statement, from Parser.__r14b_statement_list_prime. -/
def firstOfStatement : List String := ["\x7b", "if", "return", "print", "scan", "while"]

/-- The qualifier TokenType for a qualifier lexeme, from
Parser.__r8_qualifier (Python TokenType[lexeme.upper()]). -/
def qualifierOf (s : String) : TokenType :=
  if s = "integer" then TokenType.INTEGER
  else if s = "boolean" then TokenType.BOOLEAN
  else if s = "real" then TokenType.REAL
  else TokenType.UNKNOWN

/-- Parser.__r8_qualifier (no recursion into other rules). -/
def r8_qualifier : PR TokenType := do
  logCur
  let t ← curToken
  if t.lexeme = "integer" ∨ t.lexeme = "boolean" ∨ t.lexeme = "real" then do
    let q := qualifierOf t.lexeme
    matchTok t.lexeme
    PR.pure q
  else perr (PErr.qualifierMissing t.lexeme)

/-- Parser.__r24_relop (no recursion into other rules). -/
def r24_relop : PR Operator := do
  let t ← curToken
  let lexeme := strLower t.lexeme
  let relop_code ←
    if lexeme = "<" then PR.pure Operator.LES
    else if lexeme = ">" then PR.pure Operator.GRT
    else if lexeme = "==" then PR.pure Operator.EQU
    else if lexeme = "!=" then PR.pure Operator.NEQ
    else if lexeme = "<=" then PR.pure Operator.LEQ
    else if lexeme = "=>" then PR.pure Operator.GEQ
    else perr (PErr.relopMissing t.lexeme)
  logCur
  matchTok t.lexeme
  PR.pure relop_code

/-- The loop over declared identifiers in Parser.__r12_declaration adding
each to the symbol table. -/
def addSymbols : List String → TokenType → PR Unit
  | [], _ => PR.pure ()
  | x :: xs, q => do
    sym_add x q
    addSymbols xs q

/-- The loop over scanned identifiers in Parser.__r21_scan, emitting SIN
and POPM for each. -/
def scanEmits : List String → PR Unit
  | [] => PR.pure ()
  | x :: xs => do
    let address ← sym_get_address x
    let _ ← emit Operator.SIN none
    let _ ← emit Operator.POPM (some (Opnd.num address))
    scanEmits xs

mutual

/-- Parser.__r1_Rat24S. -/
def r1_Rat24S : Nat → PR Unit
  | 0 => fuelErr
  | n + 1 => do
    logCur
    matchTok "$"
    r2_opt_function_definitions n
    logCur
    matchTok "$"
    r10_opt_declaration_list n
    logCur
    matchTok "$"
    r14a_statement_list n
    logCur
    matchTok "$"

/-- Parser.__r2_optional_function_definitions. -/
def r2_opt_function_definitions : Nat → PR Unit
  | 0 => fuelErr
  | n + 1 => do
    let t ← curToken
    if t.lexeme = "function" then r3a_function_definitions n else PR.pure ()

/-- Parser.__r3a_function_definitions. -/
def r3a_function_definitions : Nat → PR Unit
  | 0 => fuelErr
  | n + 1 => do
    r4_function n
    r3b_function_definitions_prime n

/-- Parser.__r3b_function_definitions_prime. -/
def r3b_function_definitions_prime : Nat → PR Unit
  | 0 => fuelErr
  | n + 1 => do
    let t ← curToken
    if t.lexeme = "function" then r3a_function_definitions n else PR.pure ()

/-- Parser.__r4_function. -/
def r4_function : Nat → PR Unit
  | 0 => fuelErr
  | n + 1 => do
    logCur
    matchTok "function"
    let t ← curToken
    if t.token_type = TokenType.IDENTIFIER then do
      logCur
      matchTok t.lexeme
      logCur
      matchTok "("
      r5_opt_parameter_list n
      logCur
      matchTok ")"
      r10_opt_declaration_list n
      r9_body n
    else perr (PErr.expectedIdentifier t.token_type)

/-- Parser.__r5_optional_parameter_list. -/
def r5_opt_parameter_list : Nat → PR Unit
  | 0 => fuelErr
  | n + 1 => do
    let t ← curToken
    if t.token_type = TokenType.IDENTIFIER then r6_parameter_list n else PR.pure ()

/-- Parser.__r6_parameter_list. -/
def r6_parameter_list : Nat → PR Unit
  | 0 => fuelErr
  | n + 1 => do
    r7_parameter n
    r6b_parameter_prime n

/-- Parser.__r6b_parameter_prime. -/
def r6b_parameter_prime : Nat → PR Unit
  | 0 => fuelErr
  | n + 1 => do
    let t ← curToken
    if t.lexeme = "," then do
      logCur
      matchTok t.lexeme
      r6_parameter_list n
    else PR.pure ()

/-- Parser.__r7_parameter. -/
def r7_parameter : Nat → PR Unit
  | 0 => fuelErr
  | n + 1 => do
    let _ ← r13_ids n
    let _ ← r8_qualifier
    PR.pure ()

/-- Parser.__r9_body. -/
def r9_body : Nat → PR Unit
  | 0 => fuelErr
  | n + 1 => do
    logCur
    matchTok "\x7b"
    r14a_statement_list n
    logCur
    matchTok "\x7d"

/-- Parser.__r10_optional_declaration_list. -/
def r10_opt_declaration_list : Nat → PR Unit
  | 0 => fuelErr
  | n + 1 => do
    let t ← curToken
    if t.lexeme = "integer" ∨ t.lexeme = "real" ∨ t.lexeme = "boolean" then
      r11_declaration_list n
    else PR.pure ()

/-- Parser.__r11_declaration_list. -/
def r11_declaration_list : Nat → PR Unit
  | 0 => fuelErr
  | n + 1 => do
    let t ← curToken
    if t.lexeme = "integer" ∨ t.lexeme = "real" ∨ t.lexeme = "boolean" then do
      r12_declaration n
      logCur
      matchTok ";"
      r11b_declaration_list_prime n
    else PR.pure ()

/-- Parser.__r11b_declaration_list_prime. -/
def r11b_declaration_list_prime : Nat → PR Unit
  | 0 => fuelErr
  | n + 1 => do
    let t ← curToken
    if t.lexeme = "integer" ∨ t.lexeme = "real" ∨ t.lexeme = "boolean" then
      r11_declaration_list n
    else PR.pure ()

/-- Parser.__r12_declaration.  With code generation enabled, a REAL
qualifier raises before the identifiers are added to the symbol table. -/
def r12_declaration : Nat → PR Unit
  | 0 => fuelErr
  | n + 1 => do
    let qualifier ← r8_qualifier
    let ids ← r13_ids n
    cgOnly () (do
      if qualifier = TokenType.REAL then perr PErr.realNotAllowed
      else addSymbols ids qualifier)

/-- Parser.__r13_ids. -/
def r13_ids : Nat → PR (List String)
  | 0 => fuelErr
  | n + 1 => do
    logCur
    let t ← curToken
    if t.token_type = TokenType.IDENTIFIER then do
      matchTok t.lexeme
      let rest ← r13b_ids_prime n
      PR.pure (t.lexeme :: rest)
    else perr (PErr.expectedIdentifier t.token_type)

/-- Parser.__r13b_ids_prime. -/
def r13b_ids_prime : Nat → PR (List String)
  | 0 => fuelErr
  | n + 1 => do
    let t ← curToken
    if t.lexeme = "," then do
      logCur
      matchTok t.lexeme
      r13_ids n
    else PR.pure []

/-- Parser.__r14a_statement_list. -/
def r14a_statement_list : Nat → PR Unit
  | 0 => fuelErr
  | n + 1 => do
    r15_statement n
    r14b_statement_list_prime n

/-- Parser.__r14b_statement_list_prime. -/
def r14b_statement_list_prime : Nat → PR Unit
  | 0 => fuelErr
  | n + 1 => do
    let t ← curToken
    let lexeme := strLower t.lexeme
    if t.token_type = TokenType.IDENTIFIER ∨ lexeme ∈ firstOfStatement then
      r14a_statement_list n
    else PR.pure ()

/-- Parser.__r15_statement. -/
def r15_statement : Nat → PR Unit
  | 0 => fuelErr
  | n + 1 => do
    let t ← curToken
    let lexeme := strLower t.lexeme
    if lexeme = "\x7b" then r16_compound n
    else if t.token_type = TokenType.IDENTIFIER then r17_assign n
    else if lexeme = "if" then r18a_if n
    else if lexeme = "return" then r19a_return n
    else if lexeme = "print" then r20_print n
    else if lexeme = "scan" then r21_scan n
    else if lexeme = "while" then r22_while n
    else perr (PErr.statementMissing t.lexeme)

/-- Parser.__r16_compound. -/
def r16_compound : Nat → PR Unit
  | 0 => fuelErr
  | n + 1 => do
    logCur
    matchTok "\x7b"
    r14a_statement_list n
    logCur
    matchTok "\x7d"

/-- Parser.__r17_assign.  With code generation enabled, after the RHS
expression the LHS declared type must be a member of the collected set of
RHS data types, else a type-mismatch error; on success a POPM to the LHS
address follows the expression code. -/
def r17_assign : Nat → PR Unit
  | 0 => fuelErr
  | n + 1 => do
    let t0 ← curToken
    let lhs : Option Token :=
      if t0.token_type = TokenType.IDENTIFIER then some t0 else none
    logCur
    matchTok t0.lexeme
    let t1 ← curToken
    if t1.lexeme = "=" then do
      logCur
      matchTok t1.lexeme
      let set_of_data_types ← r25a_expression n
      cgOnly () (do
        let lhs_token ←
          match lhs with
          | some t => PR.pure t
          | none => perr PErr.unboundLocal
        let lhs_datatype ← determine_data_type lhs_token
        if lhs_datatype ∉ set_of_data_types then
          perr (PErr.typeMismatch set_of_data_types lhs_datatype)
        else do
          let address ← sym_get_address lhs_token.lexeme
          let _ ← emit Operator.POPM (some (Opnd.num address))
          PR.pure ())
      logCur
      matchTok ";"
    else perr (PErr.assignOpMissing t1.lexeme)

/-- Parser.__r18a_if. -/
def r18a_if : Nat → PR Unit
  | 0 => fuelErr
  | n + 1 => do
    logCur
    matchTok "if"
    logCur
    matchTok "("
    r23_condition n
    logCur
    matchTok ")"
    r15_statement n
    r18b_if_prime n

/-- Parser.__r18b_if_prime.  With code generation enabled: at endif, emit a
LABEL and back-patch the pending jump (popped from the jump stack) to its
address; at else, emit a JUMP with placeholder operand, back-patch the
pending jump to the address just after it, push the JUMP on the jump
stack, and after the else branch emit a LABEL at endif and back-patch the
pushed JUMP to it. -/
def r18b_if_prime : Nat → PR Unit
  | 0 => fuelErr
  | n + 1 => do
    let t ← curToken
    if t.lexeme = "endif" then do
      logCur
      matchTok t.lexeme
      cgOnly () (do
        let endif_address ← emit Operator.LABEL none
        back_patch endif_address)
    else if t.lexeme = "else" then do
      logCur
      matchTok t.lexeme
      cgOnly () (do
        let jump_address ← emit Operator.JUMP none
        back_patch (jump_address + 1)
        push_jump_stack jump_address)
      r15_statement n
      logCur
      matchTok "endif"
      cgOnly () (do
        let endif_address ← emit Operator.LABEL none
        back_patch endif_address)
    else perr (PErr.keywordMissing t.lexeme)

/-- Parser.__r19a_return. -/
def r19a_return : Nat → PR Unit
  | 0 => fuelErr
  | n + 1 => do
    logCur
    matchTok "return"
    r19b_return_prime n

/-- Parser.__r19b_return_prime. -/
def r19b_return_prime : Nat → PR Unit
  | 0 => fuelErr
  | n + 1 => do
    let t ← curToken
    if t.lexeme = ";" then do
      logCur
      matchTok t.lexeme
    else do
      let _ ← r25a_expression n
      logCur
      matchTok ";"

/-- Parser.__r20_print. -/
def r20_print : Nat → PR Unit
  | 0 => fuelErr
  | n + 1 => do
    logCur
    matchTok "print"
    logCur
    matchTok "("
    let _ ← r25a_expression n
    cgOnly () (do
      let _ ← emit Operator.SOUT none
      PR.pure ())
    logCur
    matchTok ")"
    logCur
    matchTok ";"

/-- Parser.__r21_scan. -/
def r21_scan : Nat → PR Unit
  | 0 => fuelErr
  | n + 1 => do
    logCur
    matchTok "scan"
    logCur
    matchTok "("
    let list_of_ids ← r13_ids n
    cgOnly () (scanEmits list_of_ids)
    logCur
    matchTok ")"
    logCur
    matchTok ";"

/-- The parenthesised condition and loop body of Parser.__r22_while,
between the loop-entry LABEL and the trailing JUMP emission. -/
def r22_inner : Nat → PR Unit
  | 0 => fuelErr
  | n + 1 => do
    logCur
    matchTok "("
    r23_condition n
    logCur
    matchTok ")"
    r15_statement n

/-- Parser.__r22_while.  With code generation enabled: emit a LABEL at loop
entry, remember its address; after the body, emit a JUMP back to it, and
back-patch the pending condition jump (top of the jump stack) to the
address just after the JUMP. -/
def r22_while : Nat → PR Unit
  | 0 => fuelErr
  | n + 1 => do
    logCur
    matchTok "while"
    let while_label_address ← cgOnly 0 (emit Operator.LABEL none)
    r22_inner n
    cgOnly () (do
      let address ← emit Operator.JUMP (some (Opnd.num while_label_address))
      back_patch (address + 1))
    logCur
    matchTok "endwhile"

/-- Parser.__r23_condition.  With code generation enabled: emit the relop
opcode, then a JUMP0 with placeholder operand, and push its address on the
jump stack. -/
def r23_condition : Nat → PR Unit
  | 0 => fuelErr
  | n + 1 => do
    let _ ← r25a_expression n
    let relop_code ← r24_relop
    let _ ← r25a_expression n
    cgOnly () (do
      let _ ← emit relop_code none
      let address ← emit Operator.JUMP0 none
      push_jump_stack address)

/-- Parser.__r25a_expression.  Returns the collected set of data types of
the expression leaves. -/
def r25a_expression : Nat → PR (List TokenType)
  | 0 => fuelErr
  | n + 1 => do
    let t ← curToken
    if t.lexeme ≠ "(" then logCur else PR.pure ()
    let r ← r26a_term n
    let set2 ← r25b_expression_prime n r.1
    PR.pure (unionTypes r.2 set2)

/-- Parser.__r25b_expression_prime. -/
def r25b_expression_prime : Nat → Token → PR (List TokenType)
  | 0, _ => fuelErr
  | n + 1, prev_term => do
    let t ← curToken
    if t.lexeme = "+" ∨ t.lexeme = "-" then do
      let operation := if t.lexeme = "+" then Operator.A else Operator.S
      logCur
      matchTok t.lexeme
      let t2 ← curToken
      if t2.lexeme ≠ "(" then logCur else PR.pure ()
      let r ← r26a_term n
      cgOnly () (do
        validate_arithmetic_operation prev_term r.1
        let _ ← emit operation none
        PR.pure ())
      let set2 ← r25b_expression_prime n r.1
      PR.pure (unionTypes r.2 set2)
    else PR.pure []

/-- Parser.__r26a_term. -/
def r26a_term : Nat → PR (Token × List TokenType)
  | 0 => fuelErr
  | n + 1 => do
    let r ← r27_factor n
    let set2 ← r26b_term_prime n r.1
    PR.pure (r.1, unionTypes r.2 set2)

/-- Parser.__r26b_term_prime. -/
def r26b_term_prime : Nat → Token → PR (List TokenType)
  | 0, _ => fuelErr
  | n + 1, prev_factor => do
    let t ← curToken
    if t.lexeme = "*" ∨ t.lexeme = "/" then do
      let operation := if t.lexeme = "*" then Operator.M else Operator.D
      logCur
      matchTok t.lexeme
      let t2 ← curToken
      if t2.lexeme ≠ "(" then logCur else PR.pure ()
      let r ← r27_factor n
      cgOnly () (do
        validate_arithmetic_operation prev_factor r.1
        let _ ← emit operation none
        PR.pure ())
      let set2 ← r26b_term_prime n r.1
      PR.pure (unionTypes r.2 set2)
    else PR.pure []

/-- Parser.__r27_factor.  A leading minus is saved and prepended to the
lexeme only in the integer-literal PUSHI emission; boolean and identifier
primaries emit the same instructions with or without it. -/
def r27_factor : Nat → PR (Token × List TokenType)
  | 0 => fuelErr
  | n + 1 => do
    let t ← curToken
    let save ←
      if t.lexeme = "-" then do
        matchTok t.lexeme
        let t2 ← curToken
        if t2.lexeme ≠ "(" then logCur else PR.pure ()
        PR.pure "-"
      else PR.pure ""
    let r ← r28_primary n
    cgOnly () (do
      if r.1.token_type = TokenType.INTEGER then do
        let _ ← emit Operator.PUSHI (some (Opnd.str (save ++ r.1.lexeme)))
        PR.pure ()
      else if r.1.token_type = TokenType.BOOLEAN then do
        let int_value : Nat := if r.1.lexeme = "true" then 1 else 0
        let _ ← emit Operator.PUSHI (some (Opnd.num int_value))
        PR.pure ()
      else if r.1.token_type = TokenType.IDENTIFIER then do
        let address ← sym_get_address r.1.lexeme
        let _ ← emit Operator.PUSHM (some (Opnd.num address))
        PR.pure ()
      else PR.pure ())
    PR.pure r

/-- Parser.__r28_primary.  Returns the primary token (true and false are
retagged from KEYWORD to BOOLEAN) and the collected data types.  With code
generation enabled a REAL literal raises. -/
def r28_primary : Nat → PR (Token × List TokenType)
  | 0 => fuelErr
  | n + 1 => do
    let t ← curToken
    if t.token_type = TokenType.IDENTIFIER then do
      let set1 ← cgOnly [] (do
        let datatype ← determine_data_type t
        PR.pure [datatype])
      matchTok t.lexeme
      r28b_primary_prime n
      PR.pure (t, set1)
    else do
      let cg ← getCG
      if cg = true ∧ t.token_type = TokenType.REAL then
        perr PErr.realNumberNotAllowed
      else if t.token_type = TokenType.INTEGER ∨ t.token_type = TokenType.REAL then do
        matchTok t.lexeme
        PR.pure (t, [t.token_type])
      else if t.lexeme = "true" ∨ t.lexeme = "false" then do
        let token : Token := ⟨t.lexeme, TokenType.BOOLEAN⟩
        matchTok t.lexeme
        PR.pure (token, [TokenType.BOOLEAN])
      else if t.lexeme = "(" then do
        logCur
        matchTok t.lexeme
        let s ← r25a_expression n
        logCur
        matchTok ")"
        PR.pure (t, s)
      else perr (PErr.primaryExpected t.token_type)

/-- Parser.__r28b_primary_prime. -/
def r28b_primary_prime : Nat → PR Unit
  | 0 => fuelErr
  | n + 1 => do
    let t ← curToken
    if t.lexeme = "(" then do
      logCur
      matchTok "("
      let _ ← r13_ids n
      logCur
      matchTok ")"
    else PR.pure ()

end

/-- Parser.parse: raise on an empty token stream before applying any
grammar rule; otherwise apply rule 1 and then require end of input. -/
def parse (n : Nat) : PR Unit := fun st =>
  match st.toks with
  | [] => (Except.error PErr.inputEmpty, st)
  | _ =>
    (PR.bind (r1_Rat24S n) (fun _ st2 =>
      match st2.toks.head? with
      | none => (Except.ok (), st2)
      | some t => (Except.error (PErr.expectedEOF t.lexeme), st2))) st

/-- The parser state right after construction and (optionally)
Parser.enable_code_generation with a symbol table based at the given
address and a fresh instruction table. -/
def initState (cg : Bool) (base : Nat) (toks : List Token) : PState :=
  ⟨toks, ⟨base, []⟩, ⟨[], [], []⟩, cg⟩

/-- Running Parser.parse on a fresh parser over the given token stream. -/
def parseProgram (n : Nat) (cg : Bool) (base : Nat) (toks : List Token) :
    Except PErr Unit × PState :=
  parse n (initState cg base toks)

/-- Python runtime errors of the CodeGenerator wrapper. -/
inductive PyErr where
  | typeErrorUnexpectedKeywordArgument
deriving DecidableEq

/-- CodeGenerator.generate_assembly_code (src/components/code_generator.py
lines 18-28).  The method invokes Parser.enable_code_generation with the
keyword arguments symbol_table and instruction_table, but
Parser.enable_code_generation (src/components/syntax_analyzer.py line 23)
accepts only the symbol_table parameter, so in Python every invocation
raises TypeError (unexpected keyword argument) before code generation is
enabled and before parsing starts. -/
def generate_assembly_code : Except PyErr String :=
  Except.error PyErr.typeErrorUnexpectedKeywordArgument

deriving instance DecidableEq for Except

/-! ## Claim theorems -/

/-- C7: for every lexer whose token list is empty, Parser.parse raises a
syntax error with the message "The input is empty" before applying any
grammar rule (the state is untouched). -/
theorem c7_empty_input_error (n : Nat) (cg : Bool) (base : Nat) :
    parseProgram n cg base [] = (Except.error PErr.inputEmpty, initState cg base [])
    ∧ PErr.message PErr.inputEmpty = "The input is empty" :=
  ⟨rfl, rfl⟩

/-- C10: whenever the lexer reads '[' outside a comment and the next
character is not '*', it appends the one-character token ("[", UNKNOWN) and
pushes the next character back (the stream is left unchanged for normal
processing); the token is UNKNOWN, not SEPARATOR, although '[' is in the
separator set, because the comment-delimiter check precedes the separator
check. -/
theorem c10_lbracket_unknown (stream : List Char) (h : stream.head? ≠ some '*') :
    lexOne false '[' stream = ([⟨"[", TokenType.UNKNOWN⟩], false, stream)
    ∧ TokenType.UNKNOWN ≠ TokenType.SEPARATOR
    ∧ SEPARATORS.contains '[' = true := by
  refine ⟨?_, by decide, by decide⟩
  cases stream with
  | nil => rfl
  | cons c rest =>
    have hc : c ≠ '*' := by
      intro hne
      exact h (by simp [hne])
    simp only [lexOne, COMMENT_BEGIN_0, COMMENT_BEGIN_1]
    simp [hc]
    rfl

/-- C10 witness at a concrete input. -/
theorem c10_lbracket_unknown_witness :
    (['a'] : List Char).head? ≠ some '*'
    ∧ lexOne false '[' ['a'] = ([⟨"[", TokenType.UNKNOWN⟩], false, ['a']) :=
  ⟨by decide, (c10_lbracket_unknown ['a'] (by decide)).1⟩

/-- Helper for C8: once the retrieval index has reached the last token,
get_next_token returns none and leaves the lexer state unchanged. -/
theorem get_next_token_exhausted (s : LexState)
    (h : (s.tokens.length : Int) - 1 ≤ s.current_index) :
    get_next_token s = (none, s) := by
  unfold get_next_token
  rw [if_neg]
  omega

/-- Helper for C8: the (n+1)-st call counted from an exhausted state keeps
returning none with the state unchanged. -/
theorem nthCall_exhausted (n : Nat) (s : LexState)
    (h : (s.tokens.length : Int) - 1 ≤ s.current_index) :
    nthCall s n = (none, s) := by
  induction n with
  | zero => simpa [nthCall] using get_next_token_exhausted s h
  | succ m ih =>
    simp only [nthCall, get_next_token_exhausted s h]
    exact ih

/-- Helper for C8: starting p tokens in (index p - 1), the n-th successive
call returns the (p+n)-th token of the source-ordered list (none once the
list is exhausted). -/
theorem nthCall_from (toks : List Token) (n : Nat) :
    ∀ p : Nat, p ≤ toks.length →
      (nthCall ⟨toks, (p : Int) - 1⟩ n).1 = toks.get? (p + n) := by
  induction n with
  | zero =>
    intro p hp
    simp only [nthCall, get_next_token]
    by_cases hlt : p < toks.length
    · rw [if_pos (by omega)]
      have h1 : ((p : Int) - 1 + 1) = (p : Int) := by omega
      simp [h1]
    · rw [if_neg (by omega)]
      have hnone : toks.get? (p + 0) = none := List.get?_eq_none.mpr (by omega)
      rw [hnone]
  | succ m ih =>
    intro p hp
    simp only [nthCall]
    by_cases hlt : p < toks.length
    · have hstep : get_next_token ⟨toks, (p : Int) - 1⟩
          = (toks.get? p, ⟨toks, ((p + 1 : Nat) : Int) - 1⟩) := by
        simp only [get_next_token]
        rw [if_pos (by omega)]
        have h1 : ((p : Int) - 1 + 1) = ((p + 1 : Nat) : Int) - 1 := by push_cast; omega
        rw [h1]
        have h2 : (((p + 1 : Nat) : Int) - 1).toNat = p := by omega
        rw [h2]
      rw [hstep]
      have := ih (p + 1) (by omega)
      simpa [Nat.add_assoc, Nat.add_comm 1 m] using this
    · have hex : get_next_token ⟨toks, (p : Int) - 1⟩ = (none, ⟨toks, (p : Int) - 1⟩) := by
        apply get_next_token_exhausted
        simp only []
        omega
      rw [hex]
      have := ih p hp
      have hnone : toks.get? (p + m) = none := by
        apply List.get?_eq_none.mpr
        omega
      have hnone2 : toks.get? (p + (m + 1)) = none := by
        apply List.get?_eq_none.mpr
        omega
      rw [hnone2]
      rw [← hnone]
      exact this

/-- C8: successive get_next_token calls on a freshly constructed Lexer
(index -1) return the extracted tokens strictly in source order, one per
call (the n-th call returns the n-th token); and from any state where the
index has reached the last token, every later call returns none and leaves
the state unchanged, so it keeps returning none. -/
theorem c8_get_next_token_order :
    (∀ (toks : List Token) (n : Nat), (nthCall ⟨toks, -1⟩ n).1 = toks.get? n)
    ∧ (∀ (s : LexState) (n : Nat), (s.tokens.length : Int) - 1 ≤ s.current_index →
        nthCall s n = (none, s)) := by
  constructor
  · intro toks n
    have := nthCall_from toks n 0 (by omega)
    simpa using this
  · intro s n h
    exact nthCall_exhausted n s h

/-- C8 witness: on a two-token lexer the first two calls return the tokens
in order, the third call and all later ones return none. -/
theorem c8_get_next_token_order_witness :
    (nthCall ⟨[⟨"x", TokenType.IDENTIFIER⟩, ⟨";", TokenType.SEPARATOR⟩], -1⟩ 0).1
        = some ⟨"x", TokenType.IDENTIFIER⟩
    ∧ (nthCall ⟨[⟨"x", TokenType.IDENTIFIER⟩, ⟨";", TokenType.SEPARATOR⟩], -1⟩ 1).1
        = some ⟨";", TokenType.SEPARATOR⟩
    ∧ (nthCall ⟨[⟨"x", TokenType.IDENTIFIER⟩, ⟨";", TokenType.SEPARATOR⟩], -1⟩ 2).1 = none
    ∧ ((([⟨"x", TokenType.IDENTIFIER⟩, ⟨";", TokenType.SEPARATOR⟩] : List Token).length : Int) - 1
          ≤ (1 : Int)
        ∧ nthCall ⟨[⟨"x", TokenType.IDENTIFIER⟩, ⟨";", TokenType.SEPARATOR⟩], 1⟩ 5
          = (none, ⟨[⟨"x", TokenType.IDENTIFIER⟩, ⟨";", TokenType.SEPARATOR⟩], 1⟩)) := by
  refine ⟨?_, ?_, ?_, by decide,
    c8_get_next_token_order.2 ⟨[⟨"x", TokenType.IDENTIFIER⟩, ⟨";", TokenType.SEPARATOR⟩], 1⟩ 5
      (by decide)⟩
  · exact (c8_get_next_token_order.1 [⟨"x", TokenType.IDENTIFIER⟩, ⟨";", TokenType.SEPARATOR⟩] 0).trans
      (by decide)
  · exact (c8_get_next_token_order.1 [⟨"x", TokenType.IDENTIFIER⟩, ⟨";", TokenType.SEPARATOR⟩] 1).trans
      (by decide)
  · exact (c8_get_next_token_order.1 [⟨"x", TokenType.IDENTIFIER⟩, ⟨";", TokenType.SEPARATOR⟩] 2).trans
      (by decide)

set_option maxRecDepth 20000 in
set_option maxHeartbeats 2000000 in
/-- C1 (code bug): CodeGenerator.generate_assembly_code always raises a
TypeError (it passes the keyword argument instruction_table, which
Parser.enable_code_generation does not accept), so the claimed pipeline
never produces output.  The rest of the pipeline behaves as the claim
states: enabling code generation on the parser (symbol table based at
5000) and parsing the lexed source produces, in order, PUSHM 5001,
PUSHM 5002, A, POPM 5000, and the symbol table a to 5000, b to 5001,
c to 5002, all INTEGER. -/
theorem c1_simple_assignment :
    generate_assembly_code = Except.error PyErr.typeErrorUnexpectedKeywordArgument
    ∧ (parseProgram 40 true 5000 (lexFile "$ $ integer a, b, c; $ a = b + c; $")).1
        = Except.ok ()
    ∧ (parseProgram 40 true 5000 (lexFile "$ $ integer a, b, c; $ a = b + c; $")).2.itab.instrs
        = [⟨Operator.PUSHM, some (Opnd.num 5001)⟩, ⟨Operator.PUSHM, some (Opnd.num 5002)⟩,
           ⟨Operator.A, none⟩, ⟨Operator.POPM, some (Opnd.num 5000)⟩]
    ∧ (parseProgram 40 true 5000 (lexFile "$ $ integer a, b, c; $ a = b + c; $")).2.sym.entries
        = [⟨"a", 5000, TokenType.INTEGER⟩, ⟨"b", 5001, TokenType.INTEGER⟩,
           ⟨"c", 5002, TokenType.INTEGER⟩] :=
  ⟨rfl, by decide, by decide, by decide⟩

/-- The length of a list is unchanged by back-patching an operand. -/
theorem setOperand_length (l : List Instr) (idx target : Nat) :
    (setOperand l idx target).length = l.length := by
  unfold setOperand
  cases h : l.get? idx with
  | none => rfl
  | some ins => simp

/-- The back-patching invariant: every address waiting on the jump stack
refers to an already-emitted instruction (it is at most the current
instruction count), and every back-patch performed so far wrote a target
strictly greater than the patched instruction address. -/
def BPInv (st : PState) : Prop :=
  (∀ a ∈ st.itab.jump_stack, a ≤ st.itab.instrs.length)
  ∧ (∀ p ∈ st.itab.patch_log, p.1 < p.2)

/-- A parser computation preserves the back-patching invariant and never
changes the code-generation flag. -/
def PresCG {α : Type} (m : PR α) : Prop :=
  ∀ st : PState, (BPInv st → BPInv ((m st).2)) ∧ ((m st).2).cg = st.cg

theorem presCG_bind {α β : Type} {m : PR α} {f : α → PR β}
    (hm : PresCG m) (hf : ∀ a, PresCG (f a)) : PresCG (PR.bind m f) := by
  intro st
  unfold PR.bind
  rcases hms : m st with ⟨r, st2⟩
  have h2 := hm st
  rw [hms] at h2
  cases r with
  | ok a =>
    have h3 := hf a st2
    exact ⟨fun hi => h3.1 (h2.1 hi), h3.2.trans h2.2⟩
  | error e => exact h2

theorem presCG_ite {α : Type} {c : Prop} [Decidable c] {a b : PR α}
    (ha : PresCG a) (hb : PresCG b) : PresCG (if c then a else b) := by
  by_cases h : c
  · rw [if_pos h]; exact ha
  · rw [if_neg h]; exact hb

theorem presCG_pure {α : Type} (a : α) : PresCG (PR.pure a) :=
  fun _ => ⟨id, rfl⟩

theorem presCG_perr {α : Type} (e : PErr) : PresCG (perr e : PR α) :=
  fun _ => ⟨id, rfl⟩

theorem presCG_fuelErr {α : Type} : PresCG (fuelErr : PR α) :=
  fun _ => ⟨id, rfl⟩

theorem presCG_curToken : PresCG curToken := by
  intro st
  obtain ⟨toks, sym, itab, cg⟩ := st
  cases toks with
  | nil => exact ⟨id, rfl⟩
  | cons t rest => exact ⟨id, rfl⟩

theorem presCG_matchTok (expected : String) : PresCG (matchTok expected) := by
  intro st
  obtain ⟨toks, sym, itab, cg⟩ := st
  cases toks with
  | nil => exact ⟨id, rfl⟩
  | cons t rest =>
    simp only [matchTok]
    split
    · exact ⟨id, rfl⟩
    · exact ⟨id, rfl⟩

theorem presCG_logCur : PresCG logCur := by
  intro st
  obtain ⟨toks, sym, itab, cg⟩ := st
  cases toks with
  | nil => exact ⟨id, rfl⟩
  | cons t rest => exact ⟨id, rfl⟩

theorem presCG_getCG : PresCG getCG := by
  intro st
  obtain ⟨toks, sym, itab, cg⟩ := st
  exact ⟨id, rfl⟩

theorem presCG_cgOnly {α : Type} (d : α) {m : PR α} (hm : PresCG m) :
    PresCG (cgOnly d m) := by
  intro st
  obtain ⟨toks, sym, itab, cg⟩ := st
  simp only [cgOnly]
  split
  · exact hm ⟨toks, sym, itab, cg⟩
  · exact ⟨id, rfl⟩

theorem presCG_emit (op : Operator) (operand : Option Opnd) :
    PresCG (emit op operand) := by
  intro st
  obtain ⟨toks, sym, ⟨instrs, js, log⟩, cg⟩ := st
  simp only [emit]
  refine ⟨fun hi => ⟨?_, hi.2⟩, trivial⟩
  intro a ha
  have h : a ≤ instrs.length := hi.1 a ha
  simp only [List.length_append, List.length_cons, List.length_nil]
  omega

theorem presCG_sym_add (name : String) (ty : TokenType) : PresCG (sym_add name ty) := by
  intro st
  obtain ⟨toks, ⟨base, entries⟩, itab, cg⟩ := st
  simp only [sym_add]
  split
  · exact ⟨id, rfl⟩
  · exact ⟨id, rfl⟩

theorem presCG_sym_get_address (name : String) : PresCG (sym_get_address name) := by
  intro st
  obtain ⟨toks, sym, itab, cg⟩ := st
  simp only [sym_get_address]
  cases sym.lookup name with
  | some e => exact ⟨id, rfl⟩
  | none => exact ⟨id, rfl⟩

theorem presCG_determine_data_type (t : Token) : PresCG (determine_data_type t) := by
  intro st
  obtain ⟨toks, sym, itab, cg⟩ := st
  simp only [determine_data_type]
  split
  · cases sym.lookup t.lexeme with
    | some e => exact ⟨id, rfl⟩
    | none => exact ⟨id, rfl⟩
  · split
    · exact ⟨id, rfl⟩
    · split
      · exact ⟨id, rfl⟩
      · exact ⟨id, rfl⟩

theorem presCG_validate_arithmetic_operation (a b : Token) :
    PresCG (validate_arithmetic_operation a b) := by
  unfold validate_arithmetic_operation
  simp only [PR.bind_eq, PR.pure_eq]
  apply presCG_bind (presCG_determine_data_type a)
  intro ta
  apply presCG_bind (presCG_determine_data_type b)
  intro tb
  apply presCG_ite (presCG_pure ()) (presCG_perr _)

theorem presCG_addSymbols (ids : List String) (q : TokenType) :
    PresCG (addSymbols ids q) := by
  induction ids with
  | nil => exact presCG_pure ()
  | cons x xs ih =>
    simp only [addSymbols, PR.bind_eq]
    exact presCG_bind (presCG_sym_add x q) (fun _ => ih)

theorem presCG_scanEmits (ids : List String) : PresCG (scanEmits ids) := by
  induction ids with
  | nil => exact presCG_pure ()
  | cons x xs ih =>
    simp only [scanEmits, PR.bind_eq]
    apply presCG_bind (presCG_sym_get_address x)
    intro address
    apply presCG_bind (presCG_emit Operator.SIN none)
    intro _
    apply presCG_bind (presCG_emit Operator.POPM (some (Opnd.num address)))
    intro _
    exact ih

theorem presCG_r8_qualifier : PresCG r8_qualifier := by
  unfold r8_qualifier
  simp only [PR.bind_eq, PR.pure_eq]
  apply presCG_bind presCG_logCur
  intro _
  apply presCG_bind presCG_curToken
  intro t
  apply presCG_ite
  · apply presCG_bind (presCG_matchTok t.lexeme)
    intro _
    exact presCG_pure _
  · exact presCG_perr _

theorem presCG_r24_relop : PresCG r24_relop := by
  unfold r24_relop
  simp only [PR.bind_eq, PR.pure_eq]
  apply presCG_bind presCG_curToken
  intro t
  have hrest : ∀ rc : Operator,
      PresCG (PR.bind logCur (fun _ => PR.bind (matchTok t.lexeme)
        (fun _ => PR.pure rc))) := by
    intro rc
    apply presCG_bind presCG_logCur
    intro _
    apply presCG_bind (presCG_matchTok t.lexeme)
    intro _
    exact presCG_pure rc
  refine presCG_ite ?_ (presCG_ite ?_ (presCG_ite ?_ (presCG_ite ?_
    (presCG_ite ?_ (presCG_ite ?_ ?_)))))
  · exact presCG_bind (presCG_pure _) (fun y => hrest y)
  · exact presCG_bind (presCG_pure _) (fun y => hrest y)
  · exact presCG_bind (presCG_pure _) (fun y => hrest y)
  · exact presCG_bind (presCG_pure _) (fun y => hrest y)
  · exact presCG_bind (presCG_pure _) (fun y => hrest y)
  · exact presCG_bind (presCG_pure _) (fun y => hrest y)
  · exact presCG_bind (presCG_perr _) (fun y => hrest y)

/-- The condition code-generation block of Parser.__r23_condition preserves
the back-patching invariant: the pushed JUMP0 address is the address of the
just-emitted instruction. -/
theorem presCG_cond_block (relop_code : Operator) :
    PresCG (cgOnly () (do
      let _ ← emit relop_code none
      let address ← emit Operator.JUMP0 none
      push_jump_stack address)) := by
  intro st
  obtain ⟨toks, sym, ⟨instrs, js, log⟩, cg⟩ := st
  cases cg with
  | false => exact ⟨id, rfl⟩
  | true =>
    simp only [cgOnly, PR.bind_eq, PR.bind, emit, push_jump_stack, if_true]
    refine ⟨fun hi => ⟨?_, hi.2⟩, trivial⟩
    intro a ha
    simp only [List.length_append, List.length_cons, List.length_nil]
    rcases List.mem_cons.mp ha with h | h
    · subst h
      simp only [List.length_append, List.length_cons, List.length_nil]
      omega
    · have : a ≤ instrs.length := hi.1 a h
      omega

/-- The endif code-generation block of Parser.__r18b_if_prime preserves the
back-patching invariant: the LABEL is emitted after every instruction whose
address can be on the jump stack, so the patch target exceeds the patched
address. -/
theorem presCG_endif_block :
    PresCG (cgOnly () (do
      let endif_address ← emit Operator.LABEL none
      back_patch endif_address)) := by
  intro st
  obtain ⟨toks, sym, ⟨instrs, js, log⟩, cg⟩ := st
  cases cg with
  | false => exact ⟨id, rfl⟩
  | true =>
    cases js with
    | nil =>
      simp only [cgOnly, PR.bind_eq, PR.bind, emit, back_patch, if_true]
      refine ⟨fun hi => ⟨?_, hi.2⟩, trivial⟩
      intro a ha
      exact absurd ha (List.not_mem_nil a)
    | cons b rest =>
      simp only [cgOnly, PR.bind_eq, PR.bind, emit, back_patch, if_true]
      refine ⟨fun hi => ⟨?_, ?_⟩, trivial⟩
      · intro a ha
        have h2 : a ≤ instrs.length := hi.1 a (List.mem_cons_of_mem b ha)
        rw [setOperand_length]
        simp only [List.length_append, List.length_cons, List.length_nil]
        omega
      · intro p hp
        rcases List.mem_append.mp hp with h | h
        · exact hi.2 p h
        · have hb : b ≤ instrs.length := hi.1 b (List.mem_cons_self b rest)
          have hp2 : p = (b, instrs.length + 1) :=
            List.mem_singleton.mp h
          subst hp2
          simp only [List.length_append, List.length_cons, List.length_nil]
          omega

/-- The else code-generation block of Parser.__r18b_if_prime preserves the
back-patching invariant: the pending jump is patched to the address right
after the just-emitted JUMP, and the pushed JUMP address is the current
instruction count. -/
theorem presCG_else_block :
    PresCG (cgOnly () (do
      let jump_address ← emit Operator.JUMP none
      back_patch (jump_address + 1)
      push_jump_stack jump_address)) := by
  intro st
  obtain ⟨toks, sym, ⟨instrs, js, log⟩, cg⟩ := st
  cases cg with
  | false => exact ⟨id, rfl⟩
  | true =>
    cases js with
    | nil =>
      simp only [cgOnly, PR.bind_eq, PR.bind, emit, back_patch, push_jump_stack, if_true]
      refine ⟨fun hi => ⟨?_, hi.2⟩, trivial⟩
      intro a ha
      exact absurd ha (List.not_mem_nil a)
    | cons b rest =>
      simp only [cgOnly, PR.bind_eq, PR.bind, emit, back_patch, push_jump_stack, if_true]
      refine ⟨fun hi => ⟨?_, ?_⟩, trivial⟩
      · intro a ha
        rw [setOperand_length]
        simp only [List.length_append, List.length_cons, List.length_nil]
        rcases List.mem_cons.mp ha with h | h
        · subst h
          omega
        · have : a ≤ instrs.length := hi.1 a (List.mem_cons_of_mem b h)
          omega
      · intro p hp
        rcases List.mem_append.mp hp with h | h
        · exact hi.2 p h
        · have hb : b ≤ instrs.length := hi.1 b (List.mem_cons_self b rest)
          have hp2 : p = (b, instrs.length + 1 + 1) :=
            List.mem_singleton.mp h
          subst hp2
          simp only [List.length_append, List.length_cons, List.length_nil]
          omega

/-- The loop-closing code-generation block of Parser.__r22_while preserves
the back-patching invariant: the pending condition jump is patched to the
address right after the just-emitted JUMP. -/
theorem presCG_while_block (while_label_address : Nat) :
    PresCG (cgOnly () (do
      let address ← emit Operator.JUMP (some (Opnd.num while_label_address))
      back_patch (address + 1))) := by
  intro st
  obtain ⟨toks, sym, ⟨instrs, js, log⟩, cg⟩ := st
  cases cg with
  | false => exact ⟨id, rfl⟩
  | true =>
    cases js with
    | nil =>
      simp only [cgOnly, PR.bind_eq, PR.bind, emit, back_patch, if_true]
      refine ⟨fun hi => ⟨?_, hi.2⟩, trivial⟩
      intro a ha
      exact absurd ha (List.not_mem_nil a)
    | cons b rest =>
      simp only [cgOnly, PR.bind_eq, PR.bind, emit, back_patch, if_true]
      refine ⟨fun hi => ⟨?_, ?_⟩, trivial⟩
      · intro a ha
        rw [setOperand_length]
        simp only [List.length_append, List.length_cons, List.length_nil]
        have : a ≤ instrs.length := hi.1 a (List.mem_cons_of_mem b ha)
        omega
      · intro p hp
        rcases List.mem_append.mp hp with h | h
        · exact hi.2 p h
        · have hb : b ≤ instrs.length := hi.1 b (List.mem_cons_self b rest)
          have hp2 : p = (b, instrs.length + 1 + 1) :=
            List.mem_singleton.mp h
          subst hp2
          simp only [List.length_append, List.length_cons, List.length_nil]
          omega

/-- The SOUT emission block of Parser.__r20_print. -/
theorem presCG_sout_block :
    PresCG (cgOnly () (do
      let _ ← emit Operator.SOUT none
      PR.pure ())) := by
  apply presCG_cgOnly
  simp only [PR.bind_eq]
  exact presCG_bind (presCG_emit Operator.SOUT none) (fun _ => presCG_pure ())

/-- Helper for the Option-match in Parser.__r17_assign. -/
theorem presCG_optTok (o : Option Token) :
    PresCG (match o with
      | some t => PR.pure t
      | none => (perr PErr.unboundLocal : PR Token)) := by
  cases o with
  | some t => exact presCG_pure t
  | none => exact presCG_perr _

/-- All parser rules preserve the back-patching invariant and the
code-generation flag, at every fuel. -/
def PresAllAt (n : Nat) : Prop :=
  PresCG (r1_Rat24S n)
  ∧ PresCG (r2_opt_function_definitions n)
  ∧ PresCG (r3a_function_definitions n)
  ∧ PresCG (r3b_function_definitions_prime n)
  ∧ PresCG (r4_function n)
  ∧ PresCG (r5_opt_parameter_list n)
  ∧ PresCG (r6_parameter_list n)
  ∧ PresCG (r6b_parameter_prime n)
  ∧ PresCG (r7_parameter n)
  ∧ PresCG (r9_body n)
  ∧ PresCG (r10_opt_declaration_list n)
  ∧ PresCG (r11_declaration_list n)
  ∧ PresCG (r11b_declaration_list_prime n)
  ∧ PresCG (r12_declaration n)
  ∧ PresCG (r13_ids n)
  ∧ PresCG (r13b_ids_prime n)
  ∧ PresCG (r14a_statement_list n)
  ∧ PresCG (r14b_statement_list_prime n)
  ∧ PresCG (r15_statement n)
  ∧ PresCG (r16_compound n)
  ∧ PresCG (r17_assign n)
  ∧ PresCG (r18a_if n)
  ∧ PresCG (r18b_if_prime n)
  ∧ PresCG (r19a_return n)
  ∧ PresCG (r19b_return_prime n)
  ∧ PresCG (r20_print n)
  ∧ PresCG (r21_scan n)
  ∧ PresCG (r22_inner n)
  ∧ PresCG (r22_while n)
  ∧ PresCG (r23_condition n)
  ∧ PresCG (r25a_expression n)
  ∧ (∀ t : Token, PresCG (r25b_expression_prime n t))
  ∧ PresCG (r26a_term n)
  ∧ (∀ t : Token, PresCG (r26b_term_prime n t))
  ∧ PresCG (r27_factor n)
  ∧ PresCG (r28_primary n)
  ∧ PresCG (r28b_primary_prime n)

theorem presCG_all : ∀ n : Nat, PresAllAt n := by
  intro n
  induction n with
  | zero =>
    unfold PresAllAt
    exact ⟨presCG_fuelErr, presCG_fuelErr, presCG_fuelErr, presCG_fuelErr, presCG_fuelErr,
      presCG_fuelErr, presCG_fuelErr, presCG_fuelErr, presCG_fuelErr, presCG_fuelErr,
      presCG_fuelErr, presCG_fuelErr, presCG_fuelErr, presCG_fuelErr, presCG_fuelErr,
      presCG_fuelErr, presCG_fuelErr, presCG_fuelErr, presCG_fuelErr, presCG_fuelErr,
      presCG_fuelErr, presCG_fuelErr, presCG_fuelErr, presCG_fuelErr, presCG_fuelErr,
      presCG_fuelErr, presCG_fuelErr, presCG_fuelErr, presCG_fuelErr, presCG_fuelErr,
      presCG_fuelErr, fun _ => presCG_fuelErr, presCG_fuelErr, fun _ => presCG_fuelErr,
      presCG_fuelErr, presCG_fuelErr, presCG_fuelErr⟩
  | succ m ih =>
    obtain ⟨ih1, ih2, ih3a, ih3b, ih4, ih5, ih6, ih6b, ih7, ih9, ih10, ih11, ih11b, ih12,
      ih13, ih13b, ih14a, ih14b, ih15, ih16, ih17, ih18a, ih18b, ih19a, ih19b, ih20, ih21,
      ih22i, ih22, ih23, ih25a, ih25b, ih26a, ih26b, ih27, ih28, ih28b⟩ := ih
    have p2 : PresCG (r2_opt_function_definitions (m + 1)) := by
      simp only [r2_opt_function_definitions, PR.bind_eq, PR.pure_eq]
      apply presCG_bind presCG_curToken
      intro t
      exact presCG_ite ih3a (presCG_pure ())
    have p3b : PresCG (r3b_function_definitions_prime (m + 1)) := by
      simp only [r3b_function_definitions_prime, PR.bind_eq, PR.pure_eq]
      apply presCG_bind presCG_curToken
      intro t
      exact presCG_ite ih3a (presCG_pure ())
    have p3a : PresCG (r3a_function_definitions (m + 1)) := by
      simp only [r3a_function_definitions, PR.bind_eq, PR.pure_eq]
      exact presCG_bind ih4 (fun _ => ih3b)
    have p5 : PresCG (r5_opt_parameter_list (m + 1)) := by
      simp only [r5_opt_parameter_list, PR.bind_eq, PR.pure_eq]
      apply presCG_bind presCG_curToken
      intro t
      exact presCG_ite ih6 (presCG_pure ())
    have p6 : PresCG (r6_parameter_list (m + 1)) := by
      simp only [r6_parameter_list, PR.bind_eq, PR.pure_eq]
      exact presCG_bind ih7 (fun _ => ih6b)
    have p6b : PresCG (r6b_parameter_prime (m + 1)) := by
      simp only [r6b_parameter_prime, PR.bind_eq, PR.pure_eq]
      apply presCG_bind presCG_curToken
      intro t
      apply presCG_ite
      · apply presCG_bind presCG_logCur
        intro _
        exact presCG_bind (presCG_matchTok t.lexeme) (fun _ => ih6)
      · exact presCG_pure ()
    have p7 : PresCG (r7_parameter (m + 1)) := by
      simp only [r7_parameter, PR.bind_eq, PR.pure_eq]
      apply presCG_bind ih13
      intro _
      exact presCG_bind presCG_r8_qualifier (fun _ => presCG_pure ())
    have p4 : PresCG (r4_function (m + 1)) := by
      simp only [r4_function, PR.bind_eq, PR.pure_eq]
      apply presCG_bind presCG_logCur
      intro _
      apply presCG_bind (presCG_matchTok "function")
      intro _
      apply presCG_bind presCG_curToken
      intro t
      apply presCG_ite
      · apply presCG_bind presCG_logCur
        intro _
        apply presCG_bind (presCG_matchTok t.lexeme)
        intro _
        apply presCG_bind presCG_logCur
        intro _
        apply presCG_bind (presCG_matchTok "(")
        intro _
        apply presCG_bind ih5
        intro _
        apply presCG_bind presCG_logCur
        intro _
        apply presCG_bind (presCG_matchTok ")")
        intro _
        exact presCG_bind ih10 (fun _ => ih9)
      · exact presCG_perr _
    have p9 : PresCG (r9_body (m + 1)) := by
      simp only [r9_body, PR.bind_eq, PR.pure_eq]
      apply presCG_bind presCG_logCur
      intro _
      apply presCG_bind (presCG_matchTok "\x7b")
      intro _
      apply presCG_bind ih14a
      intro _
      exact presCG_bind presCG_logCur (fun _ => presCG_matchTok "\x7d")
    have p10 : PresCG (r10_opt_declaration_list (m + 1)) := by
      simp only [r10_opt_declaration_list, PR.bind_eq, PR.pure_eq]
      apply presCG_bind presCG_curToken
      intro t
      exact presCG_ite ih11 (presCG_pure ())
    have p11 : PresCG (r11_declaration_list (m + 1)) := by
      simp only [r11_declaration_list, PR.bind_eq, PR.pure_eq]
      apply presCG_bind presCG_curToken
      intro t
      apply presCG_ite
      · apply presCG_bind ih12
        intro _
        apply presCG_bind presCG_logCur
        intro _
        exact presCG_bind (presCG_matchTok ";") (fun _ => ih11b)
      · exact presCG_pure ()
    have p11b : PresCG (r11b_declaration_list_prime (m + 1)) := by
      simp only [r11b_declaration_list_prime, PR.bind_eq, PR.pure_eq]
      apply presCG_bind presCG_curToken
      intro t
      exact presCG_ite ih11 (presCG_pure ())
    have p12 : PresCG (r12_declaration (m + 1)) := by
      simp only [r12_declaration, PR.bind_eq, PR.pure_eq]
      apply presCG_bind presCG_r8_qualifier
      intro q
      apply presCG_bind ih13
      intro ids
      apply presCG_cgOnly
      exact presCG_ite (presCG_perr _) (presCG_addSymbols ids q)
    have p13 : PresCG (r13_ids (m + 1)) := by
      simp only [r13_ids, PR.bind_eq, PR.pure_eq]
      apply presCG_bind presCG_logCur
      intro _
      apply presCG_bind presCG_curToken
      intro t
      apply presCG_ite
      · apply presCG_bind (presCG_matchTok t.lexeme)
        intro _
        exact presCG_bind ih13b (fun rest => presCG_pure _)
      · exact presCG_perr _
    have p13b : PresCG (r13b_ids_prime (m + 1)) := by
      simp only [r13b_ids_prime, PR.bind_eq, PR.pure_eq]
      apply presCG_bind presCG_curToken
      intro t
      apply presCG_ite
      · apply presCG_bind presCG_logCur
        intro _
        exact presCG_bind (presCG_matchTok t.lexeme) (fun _ => ih13)
      · exact presCG_pure []
    have p14b : PresCG (r14b_statement_list_prime (m + 1)) := by
      simp only [r14b_statement_list_prime, PR.bind_eq, PR.pure_eq]
      apply presCG_bind presCG_curToken
      intro t
      exact presCG_ite ih14a (presCG_pure ())
    have p14a : PresCG (r14a_statement_list (m + 1)) := by
      simp only [r14a_statement_list, PR.bind_eq, PR.pure_eq]
      exact presCG_bind ih15 (fun _ => ih14b)
    have p15 : PresCG (r15_statement (m + 1)) := by
      simp only [r15_statement, PR.bind_eq, PR.pure_eq]
      apply presCG_bind presCG_curToken
      intro t
      exact presCG_ite ih16 (presCG_ite ih17 (presCG_ite ih18a (presCG_ite ih19a
        (presCG_ite ih20 (presCG_ite ih21 (presCG_ite ih22 (presCG_perr _)))))))
    have p16 : PresCG (r16_compound (m + 1)) := by
      simp only [r16_compound, PR.bind_eq, PR.pure_eq]
      apply presCG_bind presCG_logCur
      intro _
      apply presCG_bind (presCG_matchTok "\x7b")
      intro _
      apply presCG_bind ih14a
      intro _
      exact presCG_bind presCG_logCur (fun _ => presCG_matchTok "\x7d")
    have p17 : PresCG (r17_assign (m + 1)) := by
      simp only [r17_assign, PR.bind_eq, PR.pure_eq]
      apply presCG_bind presCG_curToken
      intro t0
      apply presCG_bind presCG_logCur
      intro _
      apply presCG_bind (presCG_matchTok t0.lexeme)
      intro _
      apply presCG_bind presCG_curToken
      intro t1
      apply presCG_ite
      · apply presCG_bind presCG_logCur
        intro _
        apply presCG_bind (presCG_matchTok t1.lexeme)
        intro _
        apply presCG_bind ih25a
        intro s
        apply presCG_bind
        · apply presCG_cgOnly
          split
          · apply presCG_bind (presCG_pure _)
            intro y
            apply presCG_bind (presCG_determine_data_type y)
            intro dt
            apply presCG_ite (presCG_perr _)
            apply presCG_bind (presCG_sym_get_address y.lexeme)
            intro address
            exact presCG_bind (presCG_emit Operator.POPM _) (fun _ => presCG_pure ())
          · apply presCG_bind (presCG_perr _)
            intro y
            apply presCG_bind (presCG_determine_data_type y)
            intro dt
            apply presCG_ite (presCG_perr _)
            apply presCG_bind (presCG_sym_get_address y.lexeme)
            intro address
            exact presCG_bind (presCG_emit Operator.POPM _) (fun _ => presCG_pure ())
        · intro _
          exact presCG_bind presCG_logCur (fun _ => presCG_matchTok ";")
      · exact presCG_perr _
    have p18a : PresCG (r18a_if (m + 1)) := by
      simp only [r18a_if, PR.bind_eq, PR.pure_eq]
      apply presCG_bind presCG_logCur
      intro _
      apply presCG_bind (presCG_matchTok "if")
      intro _
      apply presCG_bind presCG_logCur
      intro _
      apply presCG_bind (presCG_matchTok "(")
      intro _
      apply presCG_bind ih23
      intro _
      apply presCG_bind presCG_logCur
      intro _
      apply presCG_bind (presCG_matchTok ")")
      intro _
      exact presCG_bind ih15 (fun _ => ih18b)
    have p18b : PresCG (r18b_if_prime (m + 1)) := by
      simp only [r18b_if_prime, PR.bind_eq, PR.pure_eq]
      apply presCG_bind presCG_curToken
      intro t
      apply presCG_ite
      · apply presCG_bind presCG_logCur
        intro _
        exact presCG_bind (presCG_matchTok t.lexeme) (fun _ => presCG_endif_block)
      · apply presCG_ite
        · apply presCG_bind presCG_logCur
          intro _
          apply presCG_bind (presCG_matchTok t.lexeme)
          intro _
          apply presCG_bind presCG_else_block
          intro _
          apply presCG_bind ih15
          intro _
          apply presCG_bind presCG_logCur
          intro _
          exact presCG_bind (presCG_matchTok "endif") (fun _ => presCG_endif_block)
        · exact presCG_perr _
    have p19b : PresCG (r19b_return_prime (m + 1)) := by
      simp only [r19b_return_prime, PR.bind_eq, PR.pure_eq]
      apply presCG_bind presCG_curToken
      intro t
      apply presCG_ite
      · exact presCG_bind presCG_logCur (fun _ => presCG_matchTok t.lexeme)
      · apply presCG_bind ih25a
        intro _
        exact presCG_bind presCG_logCur (fun _ => presCG_matchTok ";")
    have p19a : PresCG (r19a_return (m + 1)) := by
      simp only [r19a_return, PR.bind_eq, PR.pure_eq]
      apply presCG_bind presCG_logCur
      intro _
      exact presCG_bind (presCG_matchTok "return") (fun _ => ih19b)
    have p20 : PresCG (r20_print (m + 1)) := by
      simp only [r20_print, PR.bind_eq, PR.pure_eq]
      apply presCG_bind presCG_logCur
      intro _
      apply presCG_bind (presCG_matchTok "print")
      intro _
      apply presCG_bind presCG_logCur
      intro _
      apply presCG_bind (presCG_matchTok "(")
      intro _
      apply presCG_bind ih25a
      intro _
      apply presCG_bind presCG_sout_block
      intro _
      apply presCG_bind presCG_logCur
      intro _
      apply presCG_bind (presCG_matchTok ")")
      intro _
      exact presCG_bind presCG_logCur (fun _ => presCG_matchTok ";")
    have p21 : PresCG (r21_scan (m + 1)) := by
      simp only [r21_scan, PR.bind_eq, PR.pure_eq]
      apply presCG_bind presCG_logCur
      intro _
      apply presCG_bind (presCG_matchTok "scan")
      intro _
      apply presCG_bind presCG_logCur
      intro _
      apply presCG_bind (presCG_matchTok "(")
      intro _
      apply presCG_bind ih13
      intro ids
      apply presCG_bind (presCG_cgOnly () (presCG_scanEmits ids))
      intro _
      apply presCG_bind presCG_logCur
      intro _
      apply presCG_bind (presCG_matchTok ")")
      intro _
      exact presCG_bind presCG_logCur (fun _ => presCG_matchTok ";")
    have p22i : PresCG (r22_inner (m + 1)) := by
      simp only [r22_inner, PR.bind_eq, PR.pure_eq]
      apply presCG_bind presCG_logCur
      intro _
      apply presCG_bind (presCG_matchTok "(")
      intro _
      apply presCG_bind ih23
      intro _
      apply presCG_bind presCG_logCur
      intro _
      exact presCG_bind (presCG_matchTok ")") (fun _ => ih15)
    have p22 : PresCG (r22_while (m + 1)) := by
      simp only [r22_while, PR.bind_eq, PR.pure_eq]
      apply presCG_bind presCG_logCur
      intro _
      apply presCG_bind (presCG_matchTok "while")
      intro _
      apply presCG_bind (presCG_cgOnly 0 (presCG_emit Operator.LABEL none))
      intro w
      apply presCG_bind ih22i
      intro _
      apply presCG_bind (presCG_while_block w)
      intro _
      exact presCG_bind presCG_logCur (fun _ => presCG_matchTok "endwhile")
    have p23 : PresCG (r23_condition (m + 1)) := by
      simp only [r23_condition, PR.bind_eq, PR.pure_eq]
      apply presCG_bind ih25a
      intro _
      apply presCG_bind presCG_r24_relop
      intro rc
      apply presCG_bind ih25a
      intro _
      exact presCG_cond_block rc
    have p25a : PresCG (r25a_expression (m + 1)) := by
      simp only [r25a_expression, PR.bind_eq, PR.pure_eq]
      apply presCG_bind presCG_curToken
      intro t
      have hrest : ∀ u : Unit, PresCG ((r26a_term m).bind fun r =>
          (r25b_expression_prime m r.1).bind fun set2 => PR.pure (unionTypes r.2 set2)) := by
        intro _
        apply presCG_bind ih26a
        intro r
        exact presCG_bind (ih25b r.1) (fun _ => presCG_pure _)
      apply presCG_ite
      · exact presCG_bind presCG_logCur hrest
      · exact presCG_bind (presCG_pure ()) hrest
    have p25b : ∀ t : Token, PresCG (r25b_expression_prime (m + 1) t) := by
      intro prev_term
      simp only [r25b_expression_prime, PR.bind_eq, PR.pure_eq]
      apply presCG_bind presCG_curToken
      intro t
      apply presCG_ite
      · apply presCG_bind presCG_logCur
        intro _
        apply presCG_bind (presCG_matchTok t.lexeme)
        intro _
        apply presCG_bind presCG_curToken
        intro t2
        have hrest : ∀ u : Unit, PresCG ((r26a_term m).bind fun r =>
            (cgOnly () ((validate_arithmetic_operation prev_term r.1).bind fun x =>
              (emit (if t.lexeme = "+" then Operator.A else Operator.S) none).bind fun x =>
                PR.pure ())).bind fun x =>
            (r25b_expression_prime m r.1).bind fun set2 =>
              PR.pure (unionTypes r.2 set2)) := by
          intro _
          apply presCG_bind ih26a
          intro r
          apply presCG_bind
          · apply presCG_cgOnly
            apply presCG_bind (presCG_validate_arithmetic_operation prev_term r.1)
            intro _
            exact presCG_bind (presCG_emit _ none) (fun _ => presCG_pure ())
          · intro _
            exact presCG_bind (ih25b r.1) (fun _ => presCG_pure _)
        apply presCG_ite
        · exact presCG_bind presCG_logCur hrest
        · exact presCG_bind (presCG_pure ()) hrest
      · exact presCG_pure []
    have p26a : PresCG (r26a_term (m + 1)) := by
      simp only [r26a_term, PR.bind_eq, PR.pure_eq]
      apply presCG_bind ih27
      intro r
      exact presCG_bind (ih26b r.1) (fun _ => presCG_pure _)
    have p26b : ∀ t : Token, PresCG (r26b_term_prime (m + 1) t) := by
      intro prev_factor
      simp only [r26b_term_prime, PR.bind_eq, PR.pure_eq]
      apply presCG_bind presCG_curToken
      intro t
      apply presCG_ite
      · apply presCG_bind presCG_logCur
        intro _
        apply presCG_bind (presCG_matchTok t.lexeme)
        intro _
        apply presCG_bind presCG_curToken
        intro t2
        have hrest : ∀ u : Unit, PresCG ((r27_factor m).bind fun r =>
            (cgOnly () ((validate_arithmetic_operation prev_factor r.1).bind fun x =>
              (emit (if t.lexeme = "*" then Operator.M else Operator.D) none).bind fun x =>
                PR.pure ())).bind fun x =>
            (r26b_term_prime m r.1).bind fun set2 =>
              PR.pure (unionTypes r.2 set2)) := by
          intro _
          apply presCG_bind ih27
          intro r
          apply presCG_bind
          · apply presCG_cgOnly
            apply presCG_bind (presCG_validate_arithmetic_operation prev_factor r.1)
            intro _
            exact presCG_bind (presCG_emit _ none) (fun _ => presCG_pure ())
          · intro _
            exact presCG_bind (ih26b r.1) (fun _ => presCG_pure _)
        apply presCG_ite
        · exact presCG_bind presCG_logCur hrest
        · exact presCG_bind (presCG_pure ()) hrest
      · exact presCG_pure []
    have p27 : PresCG (r27_factor (m + 1)) := by
      simp only [r27_factor, PR.bind_eq, PR.pure_eq]
      apply presCG_bind presCG_curToken
      intro t
      have hK : ∀ y : String, PresCG ((r28_primary m).bind fun r =>
          (cgOnly () (if r.1.token_type = TokenType.INTEGER then
              (emit Operator.PUSHI (some (Opnd.str (y ++ r.1.lexeme)))).bind fun x => PR.pure ()
            else if r.1.token_type = TokenType.BOOLEAN then
              (emit Operator.PUSHI (some (Opnd.num (if r.1.lexeme = "true" then 1 else 0)))).bind
                fun x => PR.pure ()
            else if r.1.token_type = TokenType.IDENTIFIER then
              (sym_get_address r.1.lexeme).bind fun address =>
                (emit Operator.PUSHM (some (Opnd.num address))).bind fun x => PR.pure ()
            else PR.pure ())).bind fun x => PR.pure r) := by
        intro y
        apply presCG_bind ih28
        intro r
        apply presCG_bind
        · apply presCG_cgOnly
          apply presCG_ite
          · exact presCG_bind (presCG_emit Operator.PUSHI _) (fun _ => presCG_pure ())
          · apply presCG_ite
            · exact presCG_bind (presCG_emit Operator.PUSHI _) (fun _ => presCG_pure ())
            · apply presCG_ite
              · apply presCG_bind (presCG_sym_get_address r.1.lexeme)
                intro address
                exact presCG_bind (presCG_emit Operator.PUSHM _) (fun _ => presCG_pure ())
              · exact presCG_pure ()
        · intro _
          exact presCG_pure r
      apply presCG_ite
      · apply presCG_bind (presCG_matchTok t.lexeme)
        intro _
        apply presCG_bind presCG_curToken
        intro t2
        apply presCG_ite
        · exact presCG_bind presCG_logCur (fun _ => presCG_bind (presCG_pure "-") hK)
        · exact presCG_bind (presCG_pure ()) (fun _ => presCG_bind (presCG_pure "-") hK)
      · exact presCG_bind (presCG_pure "") hK
    have p28b : PresCG (r28b_primary_prime (m + 1)) := by
      simp only [r28b_primary_prime, PR.bind_eq, PR.pure_eq]
      apply presCG_bind presCG_curToken
      intro t
      apply presCG_ite
      · apply presCG_bind presCG_logCur
        intro _
        apply presCG_bind (presCG_matchTok "(")
        intro _
        apply presCG_bind ih13
        intro _
        exact presCG_bind presCG_logCur (fun _ => presCG_matchTok ")")
      · exact presCG_pure ()
    have p28 : PresCG (r28_primary (m + 1)) := by
      simp only [r28_primary, PR.bind_eq, PR.pure_eq]
      apply presCG_bind presCG_curToken
      intro t
      apply presCG_ite
      · apply presCG_bind (presCG_cgOnly []
          (presCG_bind (presCG_determine_data_type t) (fun dt => presCG_pure [dt])))
        intro set1
        apply presCG_bind (presCG_matchTok t.lexeme)
        intro _
        exact presCG_bind ih28b (fun _ => presCG_pure _)
      · apply presCG_bind presCG_getCG
        intro cg
        apply presCG_ite (presCG_perr _)
        apply presCG_ite
        · exact presCG_bind (presCG_matchTok t.lexeme) (fun _ => presCG_pure _)
        · apply presCG_ite
          · exact presCG_bind (presCG_matchTok t.lexeme) (fun _ => presCG_pure _)
          · apply presCG_ite
            · apply presCG_bind presCG_logCur
              intro _
              apply presCG_bind (presCG_matchTok t.lexeme)
              intro _
              apply presCG_bind ih25a
              intro s
              exact presCG_bind presCG_logCur (fun _ => presCG_bind (presCG_matchTok ")")
                (fun _ => presCG_pure _))
            · exact presCG_perr _
    have p1 : PresCG (r1_Rat24S (m + 1)) := by
      simp only [r1_Rat24S, PR.bind_eq, PR.pure_eq]
      apply presCG_bind presCG_logCur
      intro _
      apply presCG_bind (presCG_matchTok "$")
      intro _
      apply presCG_bind ih2
      intro _
      apply presCG_bind presCG_logCur
      intro _
      apply presCG_bind (presCG_matchTok "$")
      intro _
      apply presCG_bind ih10
      intro _
      apply presCG_bind presCG_logCur
      intro _
      apply presCG_bind (presCG_matchTok "$")
      intro _
      apply presCG_bind ih14a
      intro _
      exact presCG_bind presCG_logCur (fun _ => presCG_matchTok "$")
    exact ⟨p1, p2, p3a, p3b, p4, p5, p6, p6b, p7, p9, p10, p11, p11b, p12, p13, p13b,
      p14a, p14b, p15, p16, p17, p18a, p18b, p19a, p19b, p20, p21, p22i, p22, p23,
      p25a, p25b, p26a, p26b, p27, p28, p28b⟩

/-- C4: on every code-generated parse (nested if, if-else and while
included), every back-patch performed wrote an operand strictly greater
than the address of the patched JUMP0/JUMP instruction. -/
theorem c4_backpatch_targets_forward (n base : Nat) (toks : List Token)
    (hok : (parseProgram n true base toks).1 = Except.ok ()) :
    ∀ p ∈ (parseProgram n true base toks).2.itab.patch_log, p.1 < p.2 := by
  intro p hp
  cases toks with
  | nil => simp [parseProgram, parse, initState] at hok
  | cons t ts =>
    have hInv0 : BPInv (initState true base (t :: ts)) :=
      ⟨fun a ha => absurd ha (List.not_mem_nil a),
       fun q hq => absurd hq (List.not_mem_nil q)⟩
    have hpres := (presCG_all n).1 (initState true base (t :: ts))
    have hInv2 := hpres.1 hInv0
    have hstate : (parseProgram n true base (t :: ts)).2
        = (r1_Rat24S n (initState true base (t :: ts))).2 := by
      simp only [parseProgram, parse, initState, PR.bind]
      rcases h1 : r1_Rat24S n ⟨t :: ts, ⟨base, []⟩, ⟨[], [], []⟩, true⟩ with ⟨r, st2⟩
      cases r with
      | ok a =>
        cases h2 : st2.toks.head? with
        | none => simp [h2]
        | some u => simp [h2]
      | error e => simp
    rw [hstate] at hp
    exact hInv2.2 p hp

set_option maxRecDepth 20000 in
set_option maxHeartbeats 2000000 in
/-- C4 witness: a while-loop program code-generates successfully and its
single back-patch wrote a target beyond the patched JUMP0. -/
theorem c4_backpatch_targets_forward_witness :
    (parseProgram 60 true 5000
        (lexFile "$ $ integer i; $ while (i < 10) i = i + 1; endwhile $")).1 = Except.ok ()
    ∧ ∀ p ∈ (parseProgram 60 true 5000
        (lexFile "$ $ integer i; $ while (i < 10) i = i + 1; endwhile $")).2.itab.patch_log,
        p.1 < p.2 :=
  ⟨by decide, c4_backpatch_targets_forward 60 5000 _ (by decide)⟩

/-- Application-form reduction lemmas, used to evaluate the embedded parser
symbolically in the claim proofs below. -/
@[simp] theorem PR.bind_app {α β : Type} (m : PR α) (f : α → PR β) (st : PState) :
    PR.bind m f st =
      match m st with
      | (Except.ok a, st2) => f a st2
      | (Except.error e, st2) => (Except.error e, st2) := rfl

@[simp] theorem PR.pure_app {α : Type} (a : α) (st : PState) :
    PR.pure a st = (Except.ok a, st) := rfl

@[simp] theorem curToken_cons (t : Token) (rest : List Token) (sym : SymbolTable)
    (itab : InstructionTable) (cg : Bool) :
    curToken ⟨t :: rest, sym, itab, cg⟩ = (Except.ok t, ⟨t :: rest, sym, itab, cg⟩) := rfl

@[simp] theorem logCur_cons (t : Token) (rest : List Token) (sym : SymbolTable)
    (itab : InstructionTable) (cg : Bool) :
    logCur ⟨t :: rest, sym, itab, cg⟩ = (Except.ok (), ⟨t :: rest, sym, itab, cg⟩) := rfl

@[simp] theorem matchTok_cons (expected : String) (t : Token) (rest : List Token)
    (sym : SymbolTable) (itab : InstructionTable) (cg : Bool) :
    matchTok expected ⟨t :: rest, sym, itab, cg⟩ =
      if t.lexeme = expected then (Except.ok (), ⟨rest, sym, itab, cg⟩)
      else (Except.error (PErr.expectedFound expected t.lexeme), ⟨t :: rest, sym, itab, cg⟩) := rfl

@[simp] theorem getCG_app (toks : List Token) (sym : SymbolTable)
    (itab : InstructionTable) (cg : Bool) :
    getCG ⟨toks, sym, itab, cg⟩ = (Except.ok cg, ⟨toks, sym, itab, cg⟩) := rfl

@[simp] theorem cgOnly_app {α : Type} (d : α) (m : PR α) (toks : List Token)
    (sym : SymbolTable) (itab : InstructionTable) (cg : Bool) :
    cgOnly d m ⟨toks, sym, itab, cg⟩ =
      if cg then m ⟨toks, sym, itab, cg⟩ else (Except.ok d, ⟨toks, sym, itab, cg⟩) := rfl

@[simp] theorem emit_app (op : Operator) (operand : Option Opnd) (toks : List Token)
    (sym : SymbolTable) (instrs : List Instr) (js : List Nat) (log : List (Nat × Nat))
    (cg : Bool) :
    emit op operand ⟨toks, sym, ⟨instrs, js, log⟩, cg⟩ =
      (Except.ok (instrs.length + 1),
       ⟨toks, sym, ⟨instrs ++ [⟨op, operand⟩], js, log⟩, cg⟩) := rfl

@[simp] theorem push_jump_stack_app (a : Nat) (toks : List Token) (sym : SymbolTable)
    (instrs : List Instr) (js : List Nat) (log : List (Nat × Nat)) (cg : Bool) :
    push_jump_stack a ⟨toks, sym, ⟨instrs, js, log⟩, cg⟩ =
      (Except.ok (), ⟨toks, sym, ⟨instrs, a :: js, log⟩, cg⟩) := rfl

@[simp] theorem back_patch_cons (target : Nat) (toks : List Token) (sym : SymbolTable)
    (instrs : List Instr) (a : Nat) (js : List Nat) (log : List (Nat × Nat)) (cg : Bool) :
    back_patch target ⟨toks, sym, ⟨instrs, a :: js, log⟩, cg⟩ =
      (Except.ok (),
       ⟨toks, sym, ⟨setOperand instrs (a - 1) target, js, log ++ [(a, target)]⟩, cg⟩) := rfl

@[simp] theorem sym_get_address_app (name : String) (toks : List Token)
    (sym : SymbolTable) (itab : InstructionTable) (cg : Bool) :
    sym_get_address name ⟨toks, sym, itab, cg⟩ =
      (match sym.lookup name with
       | some e => (Except.ok e.address, (⟨toks, sym, itab, cg⟩ : PState))
       | none => (Except.error (PErr.identifierNotFound name), ⟨toks, sym, itab, cg⟩)) := rfl

@[simp] theorem determine_data_type_app (t : Token) (toks : List Token)
    (sym : SymbolTable) (itab : InstructionTable) (cg : Bool) :
    determine_data_type t ⟨toks, sym, itab, cg⟩ =
      (if t.token_type = TokenType.IDENTIFIER then
        match sym.lookup t.lexeme with
        | some e => (Except.ok e.data_type, (⟨toks, sym, itab, cg⟩ : PState))
        | none => (Except.error (PErr.identifierNotFound t.lexeme), ⟨toks, sym, itab, cg⟩)
      else if t.token_type = TokenType.INTEGER then
        (Except.ok TokenType.INTEGER, ⟨toks, sym, itab, cg⟩)
      else if t.lexeme = "true" ∨ t.lexeme = "false" then
        (Except.ok TokenType.BOOLEAN, ⟨toks, sym, itab, cg⟩)
      else (Except.error (PErr.cannotDetermineType t.lexeme), ⟨toks, sym, itab, cg⟩)) := rfl

@[simp] theorem perr_app {α : Type} (e : PErr) (st : PState) :
    (perr e : PR α) st = (Except.error e, st) := rfl

/-- C2: behavior of Parser.__r18b_if_prime with code generation enabled.
Without an else: at endif a LABEL is emitted at address
instrs.length + 1 and the pending jump address a popped from the jump stack
has its operand patched to that LABEL address.  With an else: a JUMP with
placeholder operand is emitted at address instrs.length + 1, the pending
jump a is patched to the address immediately after it, the JUMP address is
pushed on the jump stack; then after the else branch, at endif a LABEL is
emitted and the jump b then on top of the stack (the pushed JUMP under
correct nesting) is patched to that LABEL address. -/
theorem c2_if_prime_backpatch :
    (∀ (n : Nat) (t : Token) (rest : List Token) (sym : SymbolTable)
        (instrs : List Instr) (a : Nat) (js : List Nat) (log : List (Nat × Nat)),
      t.lexeme = "endif" →
      r18b_if_prime (n + 1) ⟨t :: rest, sym, ⟨instrs, a :: js, log⟩, true⟩
        = (Except.ok (),
           ⟨rest, sym,
            ⟨setOperand (instrs ++ [⟨Operator.LABEL, none⟩]) (a - 1) (instrs.length + 1),
             js, log ++ [(a, instrs.length + 1)]⟩, true⟩))
    ∧ (∀ (n : Nat) (t : Token) (rest : List Token) (sym : SymbolTable)
        (instrs : List Instr) (a : Nat) (js : List Nat) (log : List (Nat × Nat))
        (t2 : Token) (rest2 : List Token) (sym1 : SymbolTable) (instrs1 : List Instr)
        (b : Nat) (js2 : List Nat) (log1 : List (Nat × Nat)) (cg1 : Bool),
      t.lexeme = "else" →
      r15_statement n
          ⟨rest, sym,
           ⟨setOperand (instrs ++ [⟨Operator.JUMP, none⟩]) (a - 1) (instrs.length + 1 + 1),
            (instrs.length + 1) :: js, log ++ [(a, instrs.length + 1 + 1)]⟩, true⟩
        = (Except.ok (), ⟨t2 :: rest2, sym1, ⟨instrs1, b :: js2, log1⟩, cg1⟩) →
      t2.lexeme = "endif" →
      r18b_if_prime (n + 1) ⟨t :: rest, sym, ⟨instrs, a :: js, log⟩, true⟩
        = (Except.ok (),
           ⟨rest2, sym1,
            ⟨setOperand (instrs1 ++ [⟨Operator.LABEL, none⟩]) (b - 1) (instrs1.length + 1),
             js2, log1 ++ [(b, instrs1.length + 1)]⟩, true⟩)) := by
  constructor
  · intro n t rest sym instrs a js log hlex
    simp only [r18b_if_prime, PR.bind_eq, PR.pure_eq]
    simp [hlex]
  · intro n t rest sym instrs a js log t2 rest2 sym1 instrs1 b js2 log1 cg1 hlex hbody hlex2
    have hcg : cg1 = true := by
      obtain ⟨_, _, _, _, _, _, _, _, _, _, _, _, _, _, _, _, _, _, hr15, _⟩ := presCG_all n
      have h := (hr15 ⟨rest, sym,
           ⟨setOperand (instrs ++ [⟨Operator.JUMP, none⟩]) (a - 1) (instrs.length + 1 + 1),
            (instrs.length + 1) :: js, log ++ [(a, instrs.length + 1 + 1)]⟩, true⟩).2
      rw [hbody] at h
      exact h
    subst hcg
    simp only [r18b_if_prime, PR.bind_eq, PR.pure_eq]
    simp [hlex, hbody, hlex2]

set_option maxRecDepth 20000 in
/-- C2 witness: a concrete endif (patching JUMP0 at address 1 to the LABEL
at address 2) and a concrete if-else tail (else print(true); endif), where
the JUMP0 is patched to 3, the instruction after the JUMP at 2, and the
JUMP is patched to the LABEL at 5. -/
theorem c2_if_prime_backpatch_witness :
    (r18b_if_prime 1 ⟨[⟨"endif", TokenType.KEYWORD⟩], ⟨5000, []⟩,
        ⟨[⟨Operator.JUMP0, none⟩], [1], []⟩, true⟩
      = (Except.ok (), ⟨[], ⟨5000, []⟩,
          ⟨[⟨Operator.JUMP0, some (Opnd.num 2)⟩, ⟨Operator.LABEL, none⟩], [], [(1, 2)]⟩, true⟩))
    ∧ (r18b_if_prime 11 ⟨[⟨"else", TokenType.KEYWORD⟩, ⟨"print", TokenType.KEYWORD⟩,
          ⟨"(", TokenType.SEPARATOR⟩, ⟨"true", TokenType.KEYWORD⟩, ⟨")", TokenType.SEPARATOR⟩,
          ⟨";", TokenType.SEPARATOR⟩, ⟨"endif", TokenType.KEYWORD⟩],
        ⟨5000, []⟩, ⟨[⟨Operator.JUMP0, none⟩], [1], []⟩, true⟩
      = (Except.ok (), ⟨[], ⟨5000, []⟩,
          ⟨[⟨Operator.JUMP0, some (Opnd.num 3)⟩, ⟨Operator.JUMP, some (Opnd.num 5)⟩,
            ⟨Operator.PUSHI, some (Opnd.num 1)⟩, ⟨Operator.SOUT, none⟩, ⟨Operator.LABEL, none⟩],
           [], [(1, 3), (2, 5)]⟩, true⟩)) := by
  constructor
  · have h := c2_if_prime_backpatch.1 0 ⟨"endif", TokenType.KEYWORD⟩ [] ⟨5000, []⟩
      [⟨Operator.JUMP0, none⟩] 1 [] [] rfl
    exact h.trans (by decide)
  · have h := c2_if_prime_backpatch.2 10 ⟨"else", TokenType.KEYWORD⟩
      [⟨"print", TokenType.KEYWORD⟩, ⟨"(", TokenType.SEPARATOR⟩, ⟨"true", TokenType.KEYWORD⟩,
       ⟨")", TokenType.SEPARATOR⟩, ⟨";", TokenType.SEPARATOR⟩, ⟨"endif", TokenType.KEYWORD⟩]
      ⟨5000, []⟩ [⟨Operator.JUMP0, none⟩] 1 [] []
      ⟨"endif", TokenType.KEYWORD⟩ [] ⟨5000, []⟩
      [⟨Operator.JUMP0, some (Opnd.num 3)⟩, ⟨Operator.JUMP, none⟩,
       ⟨Operator.PUSHI, some (Opnd.num 1)⟩, ⟨Operator.SOUT, none⟩]
      2 [] [(1, 3)] true rfl (by decide) rfl
    exact h.trans (by decide)

/-- C3: behavior of Parser.__r22_while with code generation enabled.  A
LABEL is emitted at loop entry (address instrs.length + 1, before the
condition); after the condition and body, a JUMP whose operand is that
LABEL address is emitted at address instrs1.length + 1; and the pending
jump b on top of the jump stack (the condition JUMP0 under correct
nesting) is patched to the address immediately after the JUMP. -/
theorem c3_while_backpatch :
    ∀ (n : Nat) (t : Token) (rest : List Token) (sym : SymbolTable)
      (instrs : List Instr) (js : List Nat) (log : List (Nat × Nat))
      (t2 : Token) (rest2 : List Token) (sym1 : SymbolTable) (instrs1 : List Instr)
      (b : Nat) (js2 : List Nat) (log1 : List (Nat × Nat)) (cg1 : Bool),
      t.lexeme = "while" →
      r22_inner n ⟨rest, sym, ⟨instrs ++ [⟨Operator.LABEL, none⟩], js, log⟩, true⟩
        = (Except.ok (), ⟨t2 :: rest2, sym1, ⟨instrs1, b :: js2, log1⟩, cg1⟩) →
      t2.lexeme = "endwhile" →
      r22_while (n + 1) ⟨t :: rest, sym, ⟨instrs, js, log⟩, true⟩
        = (Except.ok (),
           ⟨rest2, sym1,
            ⟨setOperand (instrs1 ++ [⟨Operator.JUMP, some (Opnd.num (instrs.length + 1))⟩])
               (b - 1) (instrs1.length + 1 + 1),
             js2, log1 ++ [(b, instrs1.length + 1 + 1)]⟩, cg1⟩)
      ∧ (instrs ++ [(⟨Operator.LABEL, none⟩ : Instr)]).get? instrs.length
          = some ⟨Operator.LABEL, none⟩ := by
  intro n t rest sym instrs js log t2 rest2 sym1 instrs1 b js2 log1 cg1 hlex hbody hlex2
  have hcg : cg1 = true := by
    obtain ⟨_, _, _, _, _, _, _, _, _, _, _, _, _, _, _, _, _, _, _, _, _, _, _, _, _, _, _,
      hr22i, _⟩ := presCG_all n
    have h := (hr22i ⟨rest, sym, ⟨instrs ++ [⟨Operator.LABEL, none⟩], js, log⟩, true⟩).2
    rw [hbody] at h
    exact h
  subst hcg
  constructor
  · simp only [r22_while, PR.bind_eq, PR.pure_eq]
    simp [hlex, hbody, hlex2]
  · rw [List.get?_eq_getElem?]
    exact List.getElem?_concat_length _ _

set_option maxRecDepth 20000 in
/-- C3 witness: the loop while (i < 10) i = i + 1; endwhile with i at
address 5000: the LABEL is at address 1, the closing JUMP 1 at address 10,
and the condition JUMP0 at address 5 is patched to 11. -/
theorem c3_while_backpatch_witness :
    r22_while 21 ⟨[⟨"while", TokenType.KEYWORD⟩, ⟨"(", TokenType.SEPARATOR⟩,
        ⟨"i", TokenType.IDENTIFIER⟩, ⟨"<", TokenType.OPERATOR⟩, ⟨"10", TokenType.INTEGER⟩,
        ⟨")", TokenType.SEPARATOR⟩, ⟨"i", TokenType.IDENTIFIER⟩, ⟨"=", TokenType.OPERATOR⟩,
        ⟨"i", TokenType.IDENTIFIER⟩, ⟨"+", TokenType.OPERATOR⟩, ⟨"1", TokenType.INTEGER⟩,
        ⟨";", TokenType.SEPARATOR⟩, ⟨"endwhile", TokenType.IDENTIFIER⟩],
       ⟨5000, [⟨"i", 5000, TokenType.INTEGER⟩]⟩, ⟨[], [], []⟩, true⟩
      = (Except.ok (), ⟨[], ⟨5000, [⟨"i", 5000, TokenType.INTEGER⟩]⟩,
          ⟨[⟨Operator.LABEL, none⟩, ⟨Operator.PUSHM, some (Opnd.num 5000)⟩,
            ⟨Operator.PUSHI, some (Opnd.str "10")⟩, ⟨Operator.LES, none⟩,
            ⟨Operator.JUMP0, some (Opnd.num 11)⟩, ⟨Operator.PUSHM, some (Opnd.num 5000)⟩,
            ⟨Operator.PUSHI, some (Opnd.str "1")⟩, ⟨Operator.A, none⟩,
            ⟨Operator.POPM, some (Opnd.num 5000)⟩, ⟨Operator.JUMP, some (Opnd.num 1)⟩],
           [], [(5, 11)]⟩, true⟩) := by
  have h := c3_while_backpatch 20 ⟨"while", TokenType.KEYWORD⟩
    [⟨"(", TokenType.SEPARATOR⟩, ⟨"i", TokenType.IDENTIFIER⟩, ⟨"<", TokenType.OPERATOR⟩,
     ⟨"10", TokenType.INTEGER⟩, ⟨")", TokenType.SEPARATOR⟩, ⟨"i", TokenType.IDENTIFIER⟩,
     ⟨"=", TokenType.OPERATOR⟩, ⟨"i", TokenType.IDENTIFIER⟩, ⟨"+", TokenType.OPERATOR⟩,
     ⟨"1", TokenType.INTEGER⟩, ⟨";", TokenType.SEPARATOR⟩, ⟨"endwhile", TokenType.IDENTIFIER⟩]
    ⟨5000, [⟨"i", 5000, TokenType.INTEGER⟩]⟩ [] [] []
    ⟨"endwhile", TokenType.IDENTIFIER⟩ [] ⟨5000, [⟨"i", 5000, TokenType.INTEGER⟩]⟩
    [⟨Operator.LABEL, none⟩, ⟨Operator.PUSHM, some (Opnd.num 5000)⟩,
     ⟨Operator.PUSHI, some (Opnd.str "10")⟩, ⟨Operator.LES, none⟩, ⟨Operator.JUMP0, none⟩,
     ⟨Operator.PUSHM, some (Opnd.num 5000)⟩, ⟨Operator.PUSHI, some (Opnd.str "1")⟩,
     ⟨Operator.A, none⟩, ⟨Operator.POPM, some (Opnd.num 5000)⟩]
    5 [] [] true rfl (by decide) rfl
  exact h.1.trans (by decide)

/-- C5: behavior of Parser.__r17_assign with code generation enabled, for
a declared left-hand identifier.  The parser collects the set S of data
types of the RHS expression leaves; it raises the error with message "Data
types do not match" exactly when the declared type of the left-hand
identifier is not a member of S (and then the instruction table is left as
the expression produced it, with no POPM); otherwise the instruction
following the expression code is POPM to the identifier address and no
type-mismatch error is raised. -/
theorem c5_assign_type_check :
    ∀ (n : Nat) (t0 tEq : Token) (rest : List Token) (sym : SymbolTable)
      (itab : InstructionTable) (S : List TokenType) (toks1 : List Token)
      (sym1 : SymbolTable) (instrs1 : List Instr) (js1 : List Nat)
      (log1 : List (Nat × Nat)) (e : STEntry),
      t0.token_type = TokenType.IDENTIFIER →
      tEq.lexeme = "=" →
      r25a_expression n ⟨rest, sym, itab, true⟩
        = (Except.ok S, ⟨toks1, sym1, ⟨instrs1, js1, log1⟩, true⟩) →
      sym1.lookup t0.lexeme = some e →
      ((e.data_type ∉ S →
          r17_assign (n + 1) ⟨t0 :: tEq :: rest, sym, itab, true⟩
            = (Except.error (PErr.typeMismatch S e.data_type),
               ⟨toks1, sym1, ⟨instrs1, js1, log1⟩, true⟩)
          ∧ PErr.message (PErr.typeMismatch S e.data_type) = "Data types do not match")
       ∧ (e.data_type ∈ S →
          ((r17_assign (n + 1) ⟨t0 :: tEq :: rest, sym, itab, true⟩).2.itab.instrs
              = instrs1 ++ [⟨Operator.POPM, some (Opnd.num e.address)⟩]
           ∧ ∀ (S2 : List TokenType) (T2 : TokenType),
              (r17_assign (n + 1) ⟨t0 :: tEq :: rest, sym, itab, true⟩).1
                ≠ Except.error (PErr.typeMismatch S2 T2)))) := by
  intro n t0 tEq rest sym itab S toks1 sym1 instrs1 js1 log1 e ht0 hEq hbody hlookup
  constructor
  · intro hnot
    constructor
    · simp only [r17_assign, PR.bind_eq, PR.pure_eq]
      simp [ht0, hEq, hbody, hlookup, hnot]
    · rfl
  · intro hmem
    cases toks1 with
    | nil =>
      constructor
      · simp only [r17_assign, PR.bind_eq, PR.pure_eq]
        simp [ht0, hEq, hbody, hlookup, hmem, logCur]
      · intro S2 T2
        simp only [r17_assign, PR.bind_eq, PR.pure_eq]
        simp [ht0, hEq, hbody, hlookup, hmem, logCur]
    | cons u us =>
      by_cases hu : u.lexeme = ";"
      · constructor
        · simp only [r17_assign, PR.bind_eq, PR.pure_eq]
          simp [ht0, hEq, hbody, hlookup, hmem, hu]
        · intro S2 T2
          simp only [r17_assign, PR.bind_eq, PR.pure_eq]
          simp [ht0, hEq, hbody, hlookup, hmem, hu]
      · constructor
        · simp only [r17_assign, PR.bind_eq, PR.pure_eq]
          simp [ht0, hEq, hbody, hlookup, hmem, hu]
        · intro S2 T2
          simp only [r17_assign, PR.bind_eq, PR.pure_eq]
          simp [ht0, hEq, hbody, hlookup, hmem, hu]

set_option maxRecDepth 20000 in
/-- C5 witness: with integer a and boolean b, a = b; raises the
type-mismatch error and emits no POPM; with integer a and integer b,
a = b; emits POPM 5000 right after the expression code. -/
theorem c5_assign_type_check_witness :
    (r17_assign 11 ⟨[⟨"a", TokenType.IDENTIFIER⟩, ⟨"=", TokenType.OPERATOR⟩,
        ⟨"b", TokenType.IDENTIFIER⟩, ⟨";", TokenType.SEPARATOR⟩],
       ⟨5000, [⟨"a", 5000, TokenType.INTEGER⟩, ⟨"b", 5001, TokenType.BOOLEAN⟩]⟩,
       ⟨[], [], []⟩, true⟩
      = (Except.error (PErr.typeMismatch [TokenType.BOOLEAN] TokenType.INTEGER),
         ⟨[⟨";", TokenType.SEPARATOR⟩],
          ⟨5000, [⟨"a", 5000, TokenType.INTEGER⟩, ⟨"b", 5001, TokenType.BOOLEAN⟩]⟩,
          ⟨[⟨Operator.PUSHM, some (Opnd.num 5001)⟩], [], []⟩, true⟩))
    ∧ ((r17_assign 11 ⟨[⟨"a", TokenType.IDENTIFIER⟩, ⟨"=", TokenType.OPERATOR⟩,
        ⟨"b", TokenType.IDENTIFIER⟩, ⟨";", TokenType.SEPARATOR⟩],
       ⟨5000, [⟨"a", 5000, TokenType.INTEGER⟩, ⟨"b", 5001, TokenType.INTEGER⟩]⟩,
       ⟨[], [], []⟩, true⟩).2.itab.instrs
      = [⟨Operator.PUSHM, some (Opnd.num 5001)⟩, ⟨Operator.POPM, some (Opnd.num 5000)⟩]) := by
  constructor
  · have h := ((c5_assign_type_check 10 ⟨"a", TokenType.IDENTIFIER⟩ ⟨"=", TokenType.OPERATOR⟩
      [⟨"b", TokenType.IDENTIFIER⟩, ⟨";", TokenType.SEPARATOR⟩]
      ⟨5000, [⟨"a", 5000, TokenType.INTEGER⟩, ⟨"b", 5001, TokenType.BOOLEAN⟩]⟩
      ⟨[], [], []⟩ [TokenType.BOOLEAN] [⟨";", TokenType.SEPARATOR⟩]
      ⟨5000, [⟨"a", 5000, TokenType.INTEGER⟩, ⟨"b", 5001, TokenType.BOOLEAN⟩]⟩
      [⟨Operator.PUSHM, some (Opnd.num 5001)⟩] [] [] ⟨"a", 5000, TokenType.INTEGER⟩
      rfl rfl (by decide) (by decide)).1 (by decide)).1
    exact h
  · have h := ((c5_assign_type_check 10 ⟨"a", TokenType.IDENTIFIER⟩ ⟨"=", TokenType.OPERATOR⟩
      [⟨"b", TokenType.IDENTIFIER⟩, ⟨";", TokenType.SEPARATOR⟩]
      ⟨5000, [⟨"a", 5000, TokenType.INTEGER⟩, ⟨"b", 5001, TokenType.INTEGER⟩]⟩
      ⟨[], [], []⟩ [TokenType.INTEGER] [⟨";", TokenType.SEPARATOR⟩]
      ⟨5000, [⟨"a", 5000, TokenType.INTEGER⟩, ⟨"b", 5001, TokenType.INTEGER⟩]⟩
      [⟨Operator.PUSHM, some (Opnd.num 5001)⟩] [] [] ⟨"a", 5000, TokenType.INTEGER⟩
      rfl rfl (by decide) (by decide)).2 (by decide)).1
    exact h

/-- Parsing an identifier list never changes the symbol table. -/
theorem r13_sym_fixed : ∀ n : Nat,
    (∀ st : PState, ((r13_ids n st).2).sym = st.sym)
    ∧ (∀ st : PState, ((r13b_ids_prime n st).2).sym = st.sym) := by
  intro n
  induction n with
  | zero => exact ⟨fun _ => rfl, fun _ => rfl⟩
  | succ m ih =>
    constructor
    · intro st
      obtain ⟨toks, sym, itab, cg⟩ := st
      cases toks with
      | nil => rfl
      | cons t rest =>
        simp only [r13_ids, PR.bind_eq, PR.pure_eq]
        by_cases hty : t.token_type = TokenType.IDENTIFIER
        · simp only [PR.bind_app, PR.pure_app, logCur_cons, curToken_cons, matchTok_cons,
            hty, if_true, if_pos rfl]
          rcases h13b : r13b_ids_prime m ⟨rest, sym, itab, cg⟩ with ⟨r, st2⟩
          have hs := ih.2 ⟨rest, sym, itab, cg⟩
          rw [h13b] at hs
          cases r with
          | ok v => simpa using hs
          | error e => simpa using hs
        · simp [hty]
    · intro st
      obtain ⟨toks, sym, itab, cg⟩ := st
      cases toks with
      | nil => rfl
      | cons t rest =>
        simp only [r13b_ids_prime, PR.bind_eq, PR.pure_eq]
        by_cases hc : t.lexeme = ","
        · simp only [PR.bind_app, PR.pure_app, logCur_cons, curToken_cons, matchTok_cons,
            hc, if_true, if_pos rfl]
          have hs := ih.1 ⟨rest, sym, itab, cg⟩
          simpa using hs
        · simp [hc]

/-- C6: with code generation enabled, a declaration with the real qualifier
raises the error with message "Real data type is not allowed" after parsing
the identifiers but before adding any of them to the symbol table (the
symbol table is unchanged), and a REAL literal primary raises; with code
generation disabled, both are accepted without error. -/
theorem c6_real_rejected_under_codegen :
    (∀ (n : Nat) (t : Token) (rest : List Token) (sym : SymbolTable)
        (itab : InstructionTable) (ids : List String) (toks1 : List Token)
        (sym1 : SymbolTable) (itab1 : InstructionTable) (cg1 : Bool),
      t.lexeme = "real" →
      r13_ids n ⟨rest, sym, itab, true⟩ = (Except.ok ids, ⟨toks1, sym1, itab1, cg1⟩) →
      r12_declaration (n + 1) ⟨t :: rest, sym, itab, true⟩
          = (Except.error PErr.realNotAllowed, ⟨toks1, sym1, itab1, cg1⟩)
        ∧ sym1 = sym
        ∧ PErr.message PErr.realNotAllowed = "Real data type is not allowed")
    ∧ (∀ (n : Nat) (t : Token) (rest : List Token) (sym : SymbolTable)
        (itab : InstructionTable),
      t.token_type = TokenType.REAL →
      r28_primary (n + 1) ⟨t :: rest, sym, itab, true⟩
        = (Except.error PErr.realNumberNotAllowed, ⟨t :: rest, sym, itab, true⟩))
    ∧ (∀ (n : Nat) (t : Token) (rest : List Token) (sym : SymbolTable)
        (itab : InstructionTable) (ids : List String) (toks1 : List Token)
        (sym1 : SymbolTable) (itab1 : InstructionTable) (cg1 : Bool),
      t.lexeme = "real" →
      r13_ids n ⟨rest, sym, itab, false⟩ = (Except.ok ids, ⟨toks1, sym1, itab1, cg1⟩) →
      r12_declaration (n + 1) ⟨t :: rest, sym, itab, false⟩
        = (Except.ok (), ⟨toks1, sym1, itab1, cg1⟩))
    ∧ (∀ (n : Nat) (t : Token) (rest : List Token) (sym : SymbolTable)
        (itab : InstructionTable),
      t.token_type = TokenType.REAL →
      r28_primary (n + 1) ⟨t :: rest, sym, itab, false⟩
        = (Except.ok (t, [TokenType.REAL]), ⟨rest, sym, itab, false⟩)) := by
  refine ⟨?_, ?_, ?_, ?_⟩
  · intro n t rest sym itab ids toks1 sym1 itab1 cg1 hlex hids
    have hcg : cg1 = true := by
      obtain ⟨_, _, _, _, _, _, _, _, _, _, _, _, _, _, hr13, _⟩ := presCG_all n
      have h := (hr13 ⟨rest, sym, itab, true⟩).2
      rw [hids] at h
      exact h
    subst hcg
    have hsym : sym1 = sym := by
      have h := (r13_sym_fixed n).1 ⟨rest, sym, itab, true⟩
      rw [hids] at h
      exact h
    refine ⟨?_, hsym, rfl⟩
    simp only [r12_declaration, r8_qualifier, qualifierOf, PR.bind_eq, PR.pure_eq]
    simp [hlex, hids]
  · intro n t rest sym itab hty
    simp only [r28_primary, PR.bind_eq, PR.pure_eq]
    simp [hty]
  · intro n t rest sym itab ids toks1 sym1 itab1 cg1 hlex hids
    have hcg : cg1 = false := by
      obtain ⟨_, _, _, _, _, _, _, _, _, _, _, _, _, _, hr13, _⟩ := presCG_all n
      have h := (hr13 ⟨rest, sym, itab, false⟩).2
      rw [hids] at h
      exact h
    subst hcg
    simp only [r12_declaration, r8_qualifier, qualifierOf, PR.bind_eq, PR.pure_eq]
    simp [hlex, hids]
  · intro n t rest sym itab hty
    simp only [r28_primary, PR.bind_eq, PR.pure_eq]
    simp [hty]

set_option maxRecDepth 20000 in
/-- C6 witness: the declaration real x; raises under code generation and is
accepted without it; the literal 3.14 raises as a primary under code
generation and is accepted without it. -/
theorem c6_real_rejected_under_codegen_witness :
    (r12_declaration 6 ⟨[⟨"real", TokenType.KEYWORD⟩, ⟨"x", TokenType.IDENTIFIER⟩,
        ⟨";", TokenType.SEPARATOR⟩], ⟨5000, []⟩, ⟨[], [], []⟩, true⟩
      = (Except.error PErr.realNotAllowed,
         ⟨[⟨";", TokenType.SEPARATOR⟩], ⟨5000, []⟩, ⟨[], [], []⟩, true⟩))
    ∧ (r28_primary 6 ⟨[⟨"3.14", TokenType.REAL⟩, ⟨";", TokenType.SEPARATOR⟩],
        ⟨5000, []⟩, ⟨[], [], []⟩, true⟩
      = (Except.error PErr.realNumberNotAllowed,
         ⟨[⟨"3.14", TokenType.REAL⟩, ⟨";", TokenType.SEPARATOR⟩], ⟨5000, []⟩, ⟨[], [], []⟩, true⟩))
    ∧ (r12_declaration 6 ⟨[⟨"real", TokenType.KEYWORD⟩, ⟨"x", TokenType.IDENTIFIER⟩,
        ⟨";", TokenType.SEPARATOR⟩], ⟨5000, []⟩, ⟨[], [], []⟩, false⟩
      = (Except.ok (), ⟨[⟨";", TokenType.SEPARATOR⟩], ⟨5000, []⟩, ⟨[], [], []⟩, false⟩))
    ∧ (r28_primary 6 ⟨[⟨"3.14", TokenType.REAL⟩, ⟨";", TokenType.SEPARATOR⟩],
        ⟨5000, []⟩, ⟨[], [], []⟩, false⟩
      = (Except.ok (⟨"3.14", TokenType.REAL⟩, [TokenType.REAL]),
         ⟨[⟨";", TokenType.SEPARATOR⟩], ⟨5000, []⟩, ⟨[], [], []⟩, false⟩)) := by
  refine ⟨?_, ?_, ?_, ?_⟩
  · exact (c6_real_rejected_under_codegen.1 5 ⟨"real", TokenType.KEYWORD⟩
      [⟨"x", TokenType.IDENTIFIER⟩, ⟨";", TokenType.SEPARATOR⟩] ⟨5000, []⟩ ⟨[], [], []⟩
      ["x"] [⟨";", TokenType.SEPARATOR⟩] ⟨5000, []⟩ ⟨[], [], []⟩ true rfl (by decide)).1
  · exact c6_real_rejected_under_codegen.2.1 5 ⟨"3.14", TokenType.REAL⟩
      [⟨";", TokenType.SEPARATOR⟩] ⟨5000, []⟩ ⟨[], [], []⟩ rfl
  · exact c6_real_rejected_under_codegen.2.2.1 5 ⟨"real", TokenType.KEYWORD⟩
      [⟨"x", TokenType.IDENTIFIER⟩, ⟨";", TokenType.SEPARATOR⟩] ⟨5000, []⟩ ⟨[], [], []⟩
      ["x"] [⟨";", TokenType.SEPARATOR⟩] ⟨5000, []⟩ ⟨[], [], []⟩ false rfl (by decide)
  · exact c6_real_rejected_under_codegen.2.2.2 5 ⟨"3.14", TokenType.REAL⟩
      [⟨";", TokenType.SEPARATOR⟩] ⟨5000, []⟩ ⟨[], [], []⟩ rfl

/-- If the current token is an identifier or a boolean keyword, a
successful primary parse returns a token retagged IDENTIFIER or BOOLEAN,
never an integer literal. -/
theorem r28_token_kind (n : Nat) (t : Token) (rest : List Token) (sym : SymbolTable)
    (itab : InstructionTable) (r : Token × List TokenType) (st2 : PState)
    (hyp : t.token_type = TokenType.IDENTIFIER
      ∨ (t.token_type = TokenType.KEYWORD ∧ (t.lexeme = "true" ∨ t.lexeme = "false")))
    (hr : r28_primary n ⟨t :: rest, sym, itab, true⟩ = (Except.ok r, st2)) :
    r.1.token_type = TokenType.IDENTIFIER ∨ r.1.token_type = TokenType.BOOLEAN := by
  cases n with
  | zero =>
    exfalso
    simp [r28_primary, fuelErr] at hr
  | succ m =>
    rcases hyp with hid | ⟨hkw, hbool⟩
    · simp only [r28_primary, PR.bind_eq, PR.pure_eq] at hr
      simp [hid] at hr
      rcases hlk : sym.lookup t.lexeme with _ | e
      · simp [hlk] at hr
      · have hmt : matchTok t.lexeme (⟨t :: rest, sym, itab, true⟩ : PState)
            = (Except.ok (), ⟨rest, sym, itab, true⟩) := by simp
        simp only [hlk, hmt] at hr
        rcases h28b : r28b_primary_prime m ⟨rest, sym, itab, true⟩ with ⟨rb, stb⟩
        simp only [h28b] at hr
        cases rb with
        | error e2 => simp at hr
        | ok v =>
          simp at hr
          left
          rw [← hr.1]
          exact hid
    · have hni : t.token_type ≠ TokenType.IDENTIFIER := by
        rw [hkw]
        decide
      have hnr : t.token_type ≠ TokenType.REAL := by
        rw [hkw]
        decide
      have hninteger : t.token_type ≠ TokenType.INTEGER := by
        rw [hkw]
        decide
      simp only [r28_primary, PR.bind_eq, PR.pure_eq] at hr
      simp [hni, hnr, hninteger, hbool] at hr
      rcases hbool with hb | hb
      · simp [hb] at hr
        right
        rw [← hr.1]
      · simp [hb] at hr
        right
        rw [← hr.1]

theorem str_empty_append (s : String) : "" ++ s = s := by
  cases s with
  | mk data => rfl

/-- C9: with code generation enabled, a factor - Primary whose primary is
an identifier or a boolean keyword literal produces exactly the same
result (instructions included) as the same primary without the leading
minus: the negation is discarded.  The saved minus only affects
integer-literal primaries, where PUSHI is emitted with the minus prepended
to the lexeme (and without the minus, with the bare lexeme). -/
theorem c9_unary_minus_discarded :
    (∀ (n : Nat) (tm t : Token) (rest : List Token) (sym : SymbolTable)
        (itab : InstructionTable),
      tm.lexeme = "-" → t.lexeme ≠ "-" →
      (t.token_type = TokenType.IDENTIFIER
        ∨ (t.token_type = TokenType.KEYWORD ∧ (t.lexeme = "true" ∨ t.lexeme = "false"))) →
      r27_factor (n + 1) ⟨tm :: t :: rest, sym, itab, true⟩
        = r27_factor (n + 1) ⟨t :: rest, sym, itab, true⟩)
    ∧ (∀ (n : Nat) (tm t : Token) (rest : List Token) (sym : SymbolTable)
        (instrs : List Instr) (js : List Nat) (log : List (Nat × Nat)),
      tm.lexeme = "-" → t.lexeme ≠ "-" → t.token_type = TokenType.INTEGER →
      (r27_factor (n + 2) ⟨tm :: t :: rest, sym, ⟨instrs, js, log⟩, true⟩
        = (Except.ok (t, [TokenType.INTEGER]),
           ⟨rest, sym, ⟨instrs ++ [⟨Operator.PUSHI, some (Opnd.str ("-" ++ t.lexeme))⟩],
            js, log⟩, true⟩))
      ∧ (r27_factor (n + 2) ⟨t :: rest, sym, ⟨instrs, js, log⟩, true⟩
        = (Except.ok (t, [TokenType.INTEGER]),
           ⟨rest, sym, ⟨instrs ++ [⟨Operator.PUSHI, some (Opnd.str t.lexeme)⟩],
            js, log⟩, true⟩))) := by
  constructor
  · intro n tm t rest sym itab hm hne hyp
    simp only [r27_factor, PR.bind_eq, PR.pure_eq]
    by_cases hpar : t.lexeme = "("
    · simp only [PR.bind_app, PR.pure_app, curToken_cons, logCur_cons, matchTok_cons,
        hm, hne, hpar, if_pos rfl, if_neg, ite_true, ite_false, if_true, if_false]
      simp [hm, hne, hpar]
      rcases hr : r28_primary n ⟨t :: rest, sym, itab, true⟩ with ⟨res, st2⟩
      cases res with
      | error e => simp [hr]
      | ok r =>
        obtain ⟨toks2, sym2, itab2, cg2⟩ := st2
        have hkind := r28_token_kind n t rest sym itab r ⟨toks2, sym2, itab2, cg2⟩ hyp hr
        rcases hkind with hk | hk
        · simp [hr, hk]
        · simp [hr, hk]
    · simp [hm, hne, hpar]
      rcases hr : r28_primary n ⟨t :: rest, sym, itab, true⟩ with ⟨res, st2⟩
      cases res with
      | error e => simp [hr]
      | ok r =>
        obtain ⟨toks2, sym2, itab2, cg2⟩ := st2
        have hkind := r28_token_kind n t rest sym itab r ⟨toks2, sym2, itab2, cg2⟩ hyp hr
        rcases hkind with hk | hk
        · simp [hr, hk]
        · simp [hr, hk]
  · intro n tm t rest sym instrs js log hm hne hty
    have hni : t.token_type ≠ TokenType.IDENTIFIER := by
      rw [hty]
      decide
    have hnr : t.token_type ≠ TokenType.REAL := by
      rw [hty]
      decide
    constructor
    · by_cases hpar : t.lexeme = "("
      · simp only [r27_factor, r28_primary, PR.bind_eq, PR.pure_eq]
        simp [hm, hne, hty, hni, hnr, hpar]
      · simp only [r27_factor, r28_primary, PR.bind_eq, PR.pure_eq]
        simp [hm, hne, hty, hni, hnr, hpar]
    · simp only [r27_factor, r28_primary, PR.bind_eq, PR.pure_eq]
      simp [hm, hne, hty, hni, hnr, str_empty_append]

theorem c9_unary_minus_discarded_witness :
    (r27_factor 4 ⟨[⟨"-", TokenType.OPERATOR⟩, ⟨"x", TokenType.IDENTIFIER⟩,
        ⟨";", TokenType.SEPARATOR⟩], ⟨5000, [⟨"x", 5000, TokenType.INTEGER⟩]⟩,
        ⟨[], [], []⟩, true⟩
      = r27_factor 4 ⟨[⟨"x", TokenType.IDENTIFIER⟩, ⟨";", TokenType.SEPARATOR⟩],
        ⟨5000, [⟨"x", 5000, TokenType.INTEGER⟩]⟩, ⟨[], [], []⟩, true⟩)
    ∧ (r27_factor 4 ⟨[⟨"-", TokenType.OPERATOR⟩, ⟨"7", TokenType.INTEGER⟩,
        ⟨";", TokenType.SEPARATOR⟩], ⟨5000, []⟩, ⟨[], [], []⟩, true⟩
      = (Except.ok (⟨"7", TokenType.INTEGER⟩, [TokenType.INTEGER]),
         ⟨[⟨";", TokenType.SEPARATOR⟩], ⟨5000, []⟩,
          ⟨[⟨Operator.PUSHI, some (Opnd.str ("-" ++ "7"))⟩], [], []⟩, true⟩)) :=
  ⟨c9_unary_minus_discarded.1 3 ⟨"-", TokenType.OPERATOR⟩ ⟨"x", TokenType.IDENTIFIER⟩
     [⟨";", TokenType.SEPARATOR⟩] ⟨5000, [⟨"x", 5000, TokenType.INTEGER⟩]⟩ ⟨[], [], []⟩
     rfl (by decide) (Or.inl rfl),
   (c9_unary_minus_discarded.2 2 ⟨"-", TokenType.OPERATOR⟩ ⟨"7", TokenType.INTEGER⟩
     [⟨";", TokenType.SEPARATOR⟩] ⟨5000, []⟩ [] [] [] rfl (by decide) rfl).1⟩
